import Mathlib

/-!
Verification development for the quotation system's spreadsheet-backed
persistence layer (`excelService`), its zustand stores (`companyStore`,
`productStore`) and the PDF generation pipeline (`pdfService`).

The TypeScript sources are shallowly embedded: a cell of a worksheet is a
JS value (string, number, or `undefined`), a sheet is the array-of-arrays
view that `XLSX.utils.sheet_to_json(ws, \x7b header: 1 \x7d)` yields and
`XLSX.utils.aoa_to_sheet` consumes, and a workbook is the association of
sheet names to sheets.  The XLSX base64 serialisation round-trip
(`XLSX.write` then `XLSX.read`) is modelled as the identity on workbooks.
-/

/-- A JavaScript number: either NaN or a (finite) value, modelled as a
rational.  Infinities do not arise in any code path considered here and are
not modelled. -/
inductive JsNum
  | nan
  | val (q : ℚ)
  deriving DecidableEq

/-- A cell value as seen by the array-of-arrays view of a worksheet:
`undefined` (absent cell), a string, or a number. -/
inductive Cell
  | undef
  | str (s : String)
  | num (n : JsNum)
  deriving DecidableEq

/-- JS truthiness of a cell value: `undefined`, `''`, `0` and `NaN` are
falsy, everything else is truthy. -/
def truthy : Cell → Bool
  | Cell.undef => false
  | Cell.str s => s ≠ ""
  | Cell.num JsNum.nan => false
  | Cell.num (JsNum.val q) => q ≠ 0

/-- JS strict equality `cell === s` between a cell value and a string
literal: true exactly when the cell holds that string. -/
def cellEqStr (c : Cell) (s : String) : Bool :=
  match c with
  | Cell.str t => t == s
  | _ => false

/-- Rendering of a finite JS number as a string.  Exact for integers (JS
prints integral doubles in decimal); for non-integral rationals this model
prints `num/den`, which differs from JS's shortest-round-trip decimal —
no theorem below depends on the string form of a non-integral number. -/
def ratToString (q : ℚ) : String :=
  if q.den = 1 then toString q.num else toString q.num ++ "/" ++ toString q.den

/-- JS `String(x)` on a cell value. -/
def jsToString : Cell → String
  | Cell.undef => "undefined"
  | Cell.str s => s
  | Cell.num JsNum.nan => "NaN"
  | Cell.num (JsNum.val q) => ratToString q

/-- `headers.indexOf(s)` over a header row of cells, JS semantics:
index of the first cell strictly equal to `s`, else `-1`. -/
def hIdx : List Cell → String → Int
  | [], _ => -1
  | c :: rest, s =>
    if c = Cell.str s then 0
    else
      let r := hIdx rest s
      if r = -1 then -1 else r + 1

/-- `row[i]` with JS array semantics: negative or out-of-range indices
give `undefined`. -/
def cellAt (row : List Cell) (i : Int) : Cell :=
  if i < 0 then Cell.undef else row.getD i.toNat Cell.undef

/-! ### JS numeric parsing

`parseFloat` takes the longest valid decimal-literal prefix (after
leading whitespace) and yields NaN when there is none; `Number` requires
the whole (trimmed) string to be a decimal literal, with the empty string
giving 0.  `Infinity` literals and non-decimal (hex/octal/binary) forms
accepted by `Number` are not modelled; no code path below produces them. -/

/-- Longest prefix of decimal digits, returned as (digits, rest). -/
def takeDigits : List Char → List Char × List Char
  | [] => ([], [])
  | c :: rest =>
    if c.isDigit then
      let (ds, r) := takeDigits rest
      (c :: ds, r)
    else ([], c :: rest)

/-- Numeric value of a list of decimal digits. -/
def digitsVal (ds : List Char) : ℕ :=
  ds.foldl (fun acc c => acc * 10 + (c.toNat - '0'.toNat)) 0

/-- Parse an optional sign; returns (negative?, rest). -/
def takeSign : List Char → Bool × List Char
  | '-' :: rest => (true, rest)
  | '+' :: rest => (false, rest)
  | cs => (false, cs)

/-- Parse the significand `digits [. digits]` starting at `cs`; returns
`none` when not even one digit is present on either side of the dot,
otherwise the value and the remaining characters. -/
def takeSignificand (cs : List Char) : Option (ℚ × List Char) :=
  let (ip, r₁) := takeDigits cs
  match r₁ with
  | '.' :: r₂ =>
    let (fp, r₃) := takeDigits r₂
    if ip = [] ∧ fp = [] then none
    else some ((digitsVal ip : ℚ) + (digitsVal fp : ℚ) / ((10 : ℚ) ^ fp.length), r₃)
  | _ =>
    if ip = [] then none else some ((digitsVal ip : ℚ), r₁)

/-- Parse an optional exponent part `e|E [sign] digits`; when the suffix
does not form a complete exponent it is left unconsumed (as `parseFloat`
does). -/
def takeExponent (cs : List Char) : Int × List Char :=
  match cs with
  | 'e' :: r | 'E' :: r =>
    let (neg, r₁) := takeSign r
    let (ds, r₂) := takeDigits r₁
    if ds = [] then (0, cs)
    else ((if neg then -(digitsVal ds : Int) else (digitsVal ds : Int)), r₂)
  | _ => (0, cs)

/-- Scale a rational by a power of ten with integer exponent. -/
def scalePow10 (q : ℚ) (e : Int) : ℚ :=
  if e ≥ 0 then q * (10 : ℚ) ^ e.toNat else q / (10 : ℚ) ^ (-e).toNat

/-- Parse a decimal float at the head of `cs`; returns the value and the
remaining characters, or `none` when no prefix parses. -/
def parsePrefixFloat (cs : List Char) : Option (ℚ × List Char) :=
  let (neg, r₀) := takeSign cs
  match takeSignificand r₀ with
  | none => none
  | some (m, r₁) =>
    let (e, r₂) := takeExponent r₁
    some (scalePow10 (if neg then -m else m) e, r₂)

/-- JS whitespace test (ASCII subset; sufficient for the inputs considered). -/
def isJsWs (c : Char) : Bool :=
  c = ' ' ∨ c = '\t' ∨ c = '\n' ∨ c = '\r'

/-- JS `parseFloat` on a string: skip leading whitespace, take the longest
decimal-literal prefix, NaN if there is none. -/
def parseFloatStr (s : String) : JsNum :=
  match parsePrefixFloat (s.data.dropWhile isJsWs) with
  | none => JsNum.nan
  | some (q, _) => JsNum.val q

/-- JS `Number(s)` on a string: trim whitespace; empty gives 0; otherwise
the whole remainder must be a decimal literal, else NaN. -/
def numberStr (s : String) : JsNum :=
  let t := (s.data.dropWhile isJsWs).reverse.dropWhile isJsWs |>.reverse
  if t = [] then JsNum.val 0
  else
    match parsePrefixFloat t with
    | some (q, []) => JsNum.val q
    | _ => JsNum.nan

/-- JS `parseFloat(x)` on a cell value.  A number argument is first
converted to its string form and re-parsed; for a finite double this
round-trips exactly in JS, which the model reflects directly. -/
def jsParseFloat : Cell → JsNum
  | Cell.num n => n
  | Cell.str s => parseFloatStr s
  | Cell.undef => parseFloatStr "undefined"

/-- JS `Number(x)` on a cell value. -/
def jsNumber : Cell → JsNum
  | Cell.num n => n
  | Cell.str s => numberStr s
  | Cell.undef => JsNum.nan

/-- The expression `parseFloat(cell || '0')` used for numeric columns in
`getProducts`. -/
def parseFloatOrZero (c : Cell) : JsNum :=
  jsParseFloat (if truthy c then c else Cell.str "0")

/-- The expression `Number(cell || 0)` used for numeric columns in
`getQuotationItemsByQuotationId` and `getQuotations`. -/
def numberOrZero (c : Cell) : JsNum :=
  jsNumber (if truthy c then c else Cell.num (JsNum.val 0))

/-- The expression `cell || ''` used for string columns in `getCompanies`
and `getProducts`; cells in string-typed columns hold strings in every row
these theorems consider, and other cell kinds are coerced through their JS
string form for totality. -/
def strField (c : Cell) : String :=
  jsToString (if truthy c then c else Cell.str "")

/-- The expression `cell || d` with a string default (`'USD'`, `'draft'`). -/
def strFieldD (c : Cell) (d : String) : String :=
  jsToString (if truthy c then c else Cell.str d)

/-- The expression `String(cell || '')` used for string columns in
`getQuotations`, `getQuotationItemsByQuotationId` and `getCustomerById`. -/
def strFieldS (c : Cell) : String :=
  jsToString (if truthy c then c else Cell.str "")

/-! ### JSON string-array codec

`saveProduct` stores `product.images` as `JSON.stringify(images)` and
`getProducts` reads it back through `JSON.parse`, falling back to `[]` on
failure.  The model implements `JSON.stringify` on arrays of strings and a
parser accepting exactly the JSON form such arrays serialise to (the only
form the encoded cells ever hold); any other content parses to `none`,
which the decoder maps to `[]` like the `catch` branch does. -/

/-- Lower-case hex digit for a value below 16. -/
def hexDigit (n : ℕ) : Char :=
  if n < 10 then Char.ofNat ('0'.toNat + n) else Char.ofNat ('a'.toNat + (n - 10))

/-- Value of a hex digit character, `none` if not one. -/
def hexVal (c : Char) : Option ℕ :=
  if '0' ≤ c ∧ c ≤ '9' then some (c.toNat - '0'.toNat)
  else if 'a' ≤ c ∧ c ≤ 'f' then some (c.toNat - 'a'.toNat + 10)
  else if 'A' ≤ c ∧ c ≤ 'F' then some (c.toNat - 'A'.toNat + 10)
  else none

/-- `JSON.stringify` escaping of one character inside a string literal. -/
def escChar (c : Char) : List Char :=
  if c = '"' then ['\\', '"']
  else if c = '\\' then ['\\', '\\']
  else if c = '\n' then ['\\', 'n']
  else if c = '\r' then ['\\', 'r']
  else if c = '\t' then ['\\', 't']
  else if c = '\x08' then ['\\', 'b']
  else if c = '\x0c' then ['\\', 'f']
  else if c.toNat < 32 then ['\\', 'u', '0', '0', hexDigit (c.toNat / 16), hexDigit (c.toNat % 16)]
  else [c]

/-- Escape a whole character list. -/
def escList : List Char → List Char
  | [] => []
  | c :: rest => escChar c ++ escList rest

/-- A JSON string literal for `s`, as characters. -/
def strLitChars (s : String) : List Char :=
  '"' :: escList s.data ++ ['"']

/-- Inverse of the two-character escapes. -/
def unescChar (c : Char) : Option Char :=
  if c = '"' then some '"'
  else if c = '\\' then some '\\'
  else if c = '/' then some '/'
  else if c = 'n' then some '\n'
  else if c = 'r' then some '\r'
  else if c = 't' then some '\t'
  else if c = 'b' then some '\x08'
  else if c = 'f' then some '\x0c'
  else none

/-- Parse the body of a JSON string literal (the opening quote already
consumed), accumulating characters in reverse; returns the string and the
input after the closing quote. -/
def pStr (acc : List Char) : List Char → Option (String × List Char)
  | [] => none
  | c :: rest =>
    if c = '"' then some (String.mk acc.reverse, rest)
    else if c = '\\' then
      match rest with
      | [] => none
      | e :: rest' =>
        if e = 'u' then
          match rest' with
          | a :: b :: c' :: d :: rest'' =>
            match hexVal a, hexVal b, hexVal c', hexVal d with
            | some va, some vb, some vc, some vd =>
              pStr (Char.ofNat (va * 4096 + vb * 256 + vc * 16 + vd) :: acc) rest''
            | _, _, _, _ => none
          | _ => none
        else
          match unescChar e with
          | some ch => pStr (ch :: acc) rest'
          | none => none
    else pStr (c :: acc) rest

theorem pStr_rest_lt_aux (n : ℕ) : ∀ (acc cs : List Char) (s : String) (rest : List Char),
    cs.length ≤ n → pStr acc cs = some (s, rest) → rest.length < cs.length := by
  induction n with
  | zero =>
    intro acc cs s rest hlen h
    have : cs = [] := List.length_eq_zero.mp (Nat.le_zero.mp hlen)
    subst this
    simp [pStr] at h
  | succ n ih =>
    intro acc cs s rest hlen h
    cases cs with
    | nil => simp [pStr] at h
    | cons c cs' =>
      rw [pStr.eq_def] at h
      simp only [] at h
      by_cases h1 : c = '"'
      · rw [if_pos h1] at h
        obtain ⟨-, rfl⟩ : String.mk acc.reverse = s ∧ cs' = rest := by
          simpa using h
        simp
      · rw [if_neg h1] at h
        by_cases h2 : c = '\\'
        · rw [if_pos h2] at h
          cases cs' with
          | nil => simp at h
          | cons e rest' =>
            simp only [] at h
            by_cases h3 : e = 'u'
            · rw [if_pos h3] at h
              rcases rest' with - | ⟨a, - | ⟨b, - | ⟨c'', - | ⟨d, rest''⟩⟩⟩⟩ <;>
                simp only [] at h
              · exact absurd h (by simp)
              · exact absurd h (by simp)
              · exact absurd h (by simp)
              · exact absurd h (by simp)
              · rcases hva : hexVal a with - | va <;> rw [hva] at h <;>
                  rcases hvb : hexVal b with - | vb <;> rw [hvb] at h <;>
                  rcases hvc : hexVal c'' with - | vc <;> rw [hvc] at h <;>
                  rcases hvd : hexVal d with - | vd <;> rw [hvd] at h <;>
                  simp only [] at h
                all_goals try exact absurd h (by simp)
                have hlt := ih _ _ _ _ (by simp at hlen ⊢; omega) h
                simp only [List.length_cons] at *
                omega
            · rw [if_neg h3] at h
              rcases hch : unescChar e with - | ch <;> rw [hch] at h <;> simp only [] at h
              · exact absurd h (by simp)
              · have hlt := ih _ _ _ _ (by simp at hlen ⊢; omega) h
                simp only [List.length_cons] at *
                omega
        · rw [if_neg h2] at h
          have hlt := ih _ _ _ _ (by simp at hlen ⊢; omega) h
          simp only [List.length_cons] at *
          omega

theorem pStr_rest_lt (acc cs : List Char) (s : String) (rest : List Char)
    (h : pStr acc cs = some (s, rest)) : rest.length < cs.length :=
  pStr_rest_lt_aux cs.length acc cs s rest le_rfl h

/-- Parse the elements of a JSON array of string literals, after the
opening `[`; requires the input to end exactly at the closing `]`, the
shape `JSON.stringify` produces. -/
def pArr (cs : List Char) : Option (List String) :=
  match cs with
  | ']' :: [] => some []
  | '"' :: cs' =>
    match h : pStr [] cs' with
    | none => none
    | some (s, rest) =>
      match rest with
      | ']' :: [] => some [s]
      | ',' :: rest' => (pArr rest').map (s :: ·)
      | _ => none
  | _ => none
termination_by cs.length
decreasing_by
  have := pStr_rest_lt [] cs' s (',' :: rest') h
  simp only [List.length_cons] at *
  omega

/-- Model of `JSON.parse` restricted to arrays of strings: accepts exactly
the serialised form of such arrays and rejects everything else.  The
decoder treats a `none` here like the `catch` branch in the source. -/
def parseJsonStrArr (s : String) : Option (List String) :=
  match s.data with
  | '[' :: rest => pArr rest
  | _ => none

/-- Escape a string for inclusion in a JSON string literal. -/
def escStr (s : String) : String :=
  String.mk (escList s.data)

/-- A JSON string literal. -/
def strLit (s : String) : String :=
  "\"" ++ escStr s ++ "\""

/-- Comma-separated body of a JSON array of string literals. -/
def jsonArrBody : List String → String
  | [] => ""
  | s :: l' =>
    match l' with
    | [] => strLit s
    | _ => strLit s ++ "," ++ jsonArrBody l'

/-- Model of `JSON.stringify` on an array of strings. -/
def jsonStringifyArr (l : List String) : String :=
  "[" ++ jsonArrBody l ++ "]"

theorem mkData (s : String) : String.mk s.data = s := rfl

theorem hexVal_hexDigit (n : ℕ) (h : n < 16) : hexVal (hexDigit n) = some n := by
  interval_cases n <;> rfl

/-- One escaped character is undone by the string-literal parser. -/
theorem pStr_escChar (c : Char) (acc rest : List Char) :
    pStr acc (escChar c ++ rest) = pStr (c :: acc) rest := by
  by_cases h1 : c = '"'
  case pos =>
    subst h1
    rw [pStr.eq_def]
    simp [escChar, unescChar]
  case neg =>
  by_cases h2 : c = '\\'
  case pos =>
    subst h2
    rw [pStr.eq_def]
    simp [escChar, unescChar]
  case neg =>
  by_cases h3 : c = '\n'
  case pos =>
    subst h3
    rw [pStr.eq_def]
    simp [escChar, unescChar]
  case neg =>
  by_cases h4 : c = '\r'
  case pos =>
    subst h4
    rw [pStr.eq_def]
    simp [escChar, unescChar]
  case neg =>
  by_cases h5 : c = '\t'
  case pos =>
    subst h5
    rw [pStr.eq_def]
    simp [escChar, unescChar]
  case neg =>
  by_cases h6 : c = '\x08'
  case pos =>
    subst h6
    rw [pStr.eq_def]
    simp [escChar, unescChar]
  case neg =>
  by_cases h7 : c = '\x0c'
  case pos =>
    subst h7
    rw [pStr.eq_def]
    simp [escChar, unescChar]
  case neg =>
  by_cases h8 : c.toNat < 32
  case pos =>
    rw [escChar]
    simp only [h1, h2, h3, h4, h5, h6, h7, h8, if_false, if_true]
    rw [pStr.eq_def]
    simp only [List.cons_append, reduceIte]
    rw [hexVal_hexDigit _ (by omega), hexVal_hexDigit _ (by omega)]
    simp [hexVal]
    rw [show c.toNat / 16 * 16 + c.toNat % 16 = c.toNat by omega]
    rw [Char.ofNat_toNat c]
  case neg =>
    rw [escChar]
    simp only [h1, h2, h3, h4, h5, h6, h7, h8, if_false]
    rw [pStr.eq_def]
    simp [h1, h2]

/-- The string-literal parser undoes `escList`. -/
theorem pStr_escList (cs : List Char) : ∀ (acc rest : List Char),
    pStr acc (escList cs ++ '"' :: rest) = some (String.mk (acc.reverse ++ cs), rest) := by
  induction cs with
  | nil =>
    intro acc rest
    rw [escList, List.nil_append, pStr.eq_def]
    simp
  | cons c cs' ih =>
    intro acc rest
    rw [escList, List.append_assoc, pStr_escChar]
    rw [ih (c :: acc) rest]
    simp

theorem strLit_data (s : String) : (strLit s).data = '"' :: escList s.data ++ ['"'] := by
  simp [strLit, escStr, String.data_append]

theorem pArr_single (sd : List Char) :
    pArr ('"' :: (escList sd ++ '"' :: [']'])) = some [String.mk sd] := by
  rw [pArr.eq_def]
  split
  next heq => exact absurd heq (by simp)
  next cs' heq =>
    obtain rfl : escList sd ++ '"' :: [']'] = cs' := by
      simpa using heq
    split
    next heq2 =>
      rw [pStr_escList] at heq2
      exact absurd heq2 (by simp)
    next s1 rest heq2 =>
      rw [pStr_escList] at heq2
      simp only [List.reverse_nil, List.nil_append, mkData, Option.some.injEq,
        Prod.mk.injEq] at heq2
      obtain ⟨rfl, rfl⟩ := heq2
      rfl
  next h1 h2 => exact absurd rfl (h2 _)

theorem pArr_more (sd rest' : List Char) :
    pArr ('"' :: (escList sd ++ '"' :: ',' :: rest')) =
      (pArr rest').map (String.mk sd :: ·) := by
  rw [pArr.eq_def]
  split
  next heq => exact absurd heq (by simp)
  next cs' heq =>
    obtain rfl : escList sd ++ '"' :: ',' :: rest' = cs' := by
      simpa using heq
    split
    next heq2 =>
      rw [pStr_escList] at heq2
      exact absurd heq2 (by simp)
    next s1 rest heq2 =>
      rw [pStr_escList] at heq2
      simp only [List.reverse_nil, List.nil_append, mkData, Option.some.injEq,
        Prod.mk.injEq] at heq2
      obtain ⟨rfl, rfl⟩ := heq2
      rfl
  next h1 h2 => exact absurd rfl (h2 _)

/-- The array parser undoes the array body serialiser (with the closing
bracket appended). -/
theorem pArr_body (l : List String) :
    pArr ((jsonArrBody l).data ++ [']']) = some l := by
  induction l with
  | nil =>
    rw [jsonArrBody, show ("" : String).data = [] from rfl, List.nil_append, pArr.eq_def]
    rfl
  | cons s l' ih =>
    cases l' with
    | nil =>
      rw [jsonArrBody]
      rw [strLit_data]
      have hsh : ('"' :: escList s.data ++ ['"']) ++ [']'] =
          '"' :: (escList s.data ++ '"' :: [']']) := by simp
      rw [hsh, pArr_single, mkData]
    | cons t l'' =>
      rw [jsonArrBody]
      rw [String.data_append, String.data_append, strLit_data]
      have hsh : (('"' :: escList s.data ++ ['"']) ++ ("," : String).data) ++
            ((jsonArrBody (t :: l'')).data ++ [']']) =
          '"' :: (escList s.data ++ '"' :: ',' :: ((jsonArrBody (t :: l'')).data ++ [']'])) := by
        rw [show ("," : String).data = [','] from rfl]
        simp
      rw [List.append_assoc, hsh, pArr_more, ih, mkData]
      rfl
      simp

/-- `JSON.parse` undoes `JSON.stringify` on arrays of strings. -/
theorem parseJsonStrArr_stringify (l : List String) :
    parseJsonStrArr (jsonStringifyArr l) = some l := by
  rw [parseJsonStrArr, jsonStringifyArr]
  rw [String.data_append, String.data_append]
  rw [show ("[" : String).data = ['['] from rfl, show ("]" : String).data = [']'] from rfl]
  simp only [List.cons_append, List.nil_append]
  exact pArr_body l

/-- Comma-separated body of a JSON object with string values. -/
def jsonObjBody : List (String × String) → String
  | [] => ""
  | (k, v) :: rest =>
    match rest with
    | [] => strLit k ++ ":" ++ strLit v
    | _ => strLit k ++ ":" ++ strLit v ++ "," ++ jsonObjBody rest

/-- Model of `JSON.stringify` on `Record<string, string>` (the
`specifications` map; values are modelled as strings). -/
def jsonStringifyObj (m : List (String × String)) : String :=
  "\x7b" ++ jsonObjBody m ++ "\x7d"

/-! ### Entity records (the exported interfaces of `excelService.ts`) -/

structure Company where
  id : String
  name : String
  nameEn : String
  address : String
  addressEn : String
  phone : String
  email : String
  website : String
  taxNumber : String
  bankName : String
  bankAccount : String
  swiftCode : String
  intermediaryBank : Option String
  logo : Option String
  isDefault : Bool
  deriving DecidableEq

structure Product where
  id : String
  name : String
  nameEn : String
  description : String
  descriptionEn : String
  category : String
  unit : String
  minPrice : JsNum
  maxPrice : JsNum
  currency : String
  specifications : List (String × String)
  isActive : Bool
  images : Option (List String)
  deriving DecidableEq

structure Customer where
  id : String
  name : String
  contactPerson : String
  email : String
  phone : String
  address : String
  country : String
  companyName : String
  taxNumber : String
  notes : String
  deriving DecidableEq

structure QuotationItem where
  id : String
  productId : String
  productName : String
  description : String
  quantity : JsNum
  unit : String
  unitPrice : JsNum
  discountRate : JsNum
  discountAmount : JsNum
  totalPrice : JsNum
  deriving DecidableEq

/-- `status` is the TS union `draft|sent|accepted|rejected|expired`,
modelled as the string stored in the cell. -/
structure Quotation where
  id : String
  quotationNumber : String
  companyId : String
  customerId : String
  quotationDate : String
  expiryDate : String
  currency : String
  paymentTerms : String
  deliveryTerms : String
  pickupLocation : String
  tradeTerms : String
  subtotal : JsNum
  taxRate : JsNum
  taxAmount : JsNum
  totalAmount : JsNum
  status : String
  notes : String
  items : List QuotationItem
  deriving DecidableEq

/-! ### Workbook model and canonical headers -/

/-- One worksheet as its array-of-arrays view. -/
def Sheet := List (List Cell)
  deriving DecidableEq

/-- A workbook: sheet names with their sheets.  The model identifies the
`Sheets` dictionary with the `SheetNames` order, which agree on every
workbook built by the service. -/
def Workbook := List (String × Sheet)
  deriving DecidableEq

def getSheet : Workbook → String → Option Sheet
  | [], _ => none
  | (n, s) :: rest, name => if n = name then some s else getSheet rest name

def setSheet : Workbook → String → Sheet → Workbook
  | [], name, s => [(name, s)]
  | (n, t) :: rest, name, s =>
    if n = name then (n, s) :: rest else (n, t) :: setSheet rest name s

def getCompanyHeaders : List String :=
  ["ID", "公司名称", "英文名称", "地址", "英文地址", "电话", "邮箱", "网址",
   "税号", "银行名称", "银行账号", "SWIFT代码", "中转银行", "Logo", "是否默认"]

def getProductHeaders : List String :=
  ["ID", "产品名称", "英文名称", "产品描述", "英文描述", "分类", "单位",
   "最低价格", "最高价格", "货币", "规格参数", "是否启用", "图片"]

def getCustomerHeaders : List String :=
  ["ID", "客户名称", "联系人", "邮箱", "电话", "地址", "国家", "公司名称", "税号", "备注"]

def getQuotationHeaders : List String :=
  ["ID", "报价单号", "公司ID", "客户ID", "报价日期", "有效期", "货币",
   "付款条款", "交货条款", "提货地点", "贸易术语", "小计", "税率", "税额",
   "总金额", "状态", "备注"]

def getQuotationItemHeaders : List String :=
  ["ID", "报价单ID", "产品ID", "产品名称", "描述", "数量", "单位",
   "单价", "折扣率", "折扣金额", "总价"]

def getTemplateHeaders : List String :=
  ["ID", "模板名称", "模板类型", "内容", "是否默认"]

def companyHeaderRow : List Cell := getCompanyHeaders.map Cell.str
def productHeaderRow : List Cell := getProductHeaders.map Cell.str
def customerHeaderRow : List Cell := getCustomerHeaders.map Cell.str
def quotationHeaderRow : List Cell := getQuotationHeaders.map Cell.str
def quotationItemHeaderRow : List Cell := getQuotationItemHeaders.map Cell.str
def templateHeaderRow : List Cell := getTemplateHeaders.map Cell.str

/-- `initializeExcelFile`: the fresh workbook holding the six canonical
tables, each with just its header row. -/
def freshWorkbook : Workbook :=
  [("公司信息", [companyHeaderRow]),
   ("产品库", [productHeaderRow]),
   ("客户信息", [customerHeaderRow]),
   ("报价单", [quotationHeaderRow]),
   ("报价单项", [quotationItemHeaderRow]),
   ("条款模板", [templateHeaderRow])]

/-! ### Row codecs (`getCompanies`/`saveCompany` and friends) -/

/-- The row `saveCompany` writes for a company (source order of
`rowData`). -/
def companyRow (c : Company) : List Cell :=
  [Cell.str c.id, Cell.str c.name, Cell.str c.nameEn, Cell.str c.address,
   Cell.str c.addressEn, Cell.str c.phone, Cell.str c.email, Cell.str c.website,
   Cell.str c.taxNumber, Cell.str c.bankName, Cell.str c.bankAccount,
   Cell.str c.swiftCode, Cell.str (c.intermediaryBank.getD ""),
   Cell.str (c.logo.getD ""),
   Cell.str (if c.isDefault then "是" else "否")]

/-- Decoding of one row in `getCompanies`: header-name lookup, `|| ''`
defaults, `=== '是'` for the flag. -/
def decodeCompanyRow (headers row : List Cell) : Company :=
  { id := strField (cellAt row (hIdx headers "ID"))
    name := strField (cellAt row (hIdx headers "公司名称"))
    nameEn := strField (cellAt row (hIdx headers "英文名称"))
    address := strField (cellAt row (hIdx headers "地址"))
    addressEn := strField (cellAt row (hIdx headers "英文地址"))
    phone := strField (cellAt row (hIdx headers "电话"))
    email := strField (cellAt row (hIdx headers "邮箱"))
    website := strField (cellAt row (hIdx headers "网址"))
    taxNumber := strField (cellAt row (hIdx headers "税号"))
    bankName := strField (cellAt row (hIdx headers "银行名称"))
    bankAccount := strField (cellAt row (hIdx headers "银行账号"))
    swiftCode := strField (cellAt row (hIdx headers "SWIFT代码"))
    intermediaryBank := some (strField (cellAt row (hIdx headers "中转银行")))
    logo := some (strField (cellAt row (hIdx headers "Logo")))
    isDefault := cellEqStr (cellAt row (hIdx headers "是否默认")) "是" }

/-- `getCompanies` on the company sheet: empty (or header-only) sheet
yields `[]`, otherwise every data row is decoded. -/
def getCompanies : Sheet → List Company
  | [] => []
  | headers :: rows =>
    if rows.isEmpty then [] else rows.map (decodeCompanyRow headers)

/-- The row-upsert scan shared by every `saveX`: find the first data row
whose first cell strictly equals the record id and replace it, else append
the new row at the end. -/
def upsertBy (cid : String) (newRow : List Cell) : List (List Cell) → List (List Cell)
  | [] => [newRow]
  | r :: rest =>
    if cellEqStr (cellAt r 0) cid then newRow :: rest
    else r :: upsertBy cid newRow rest

/-- `saveCompany` on the sheet data (the header row is left in place and
the scan starts at row 1, as the source loop does). -/
def saveCompanyData (c : Company) : Sheet → Sheet
  | [] => [companyRow c]
  | h :: rest => h :: upsertBy c.id (companyRow c) rest

/-- `saveCompany` at workbook level: a missing sheet is created with just
the canonical header row. -/
def saveCompanyWb (c : Company) (wb : Workbook) : Workbook :=
  setSheet wb "公司信息" (saveCompanyData c ((getSheet wb "公司信息").getD [companyHeaderRow]))

def getCompaniesWb (wb : Workbook) : List Company :=
  match getSheet wb "公司信息" with
  | none => []
  | some sheet => getCompanies sheet

/-- The argument `JSON.parse` receives for the images cell:
`row[imagesCell] || '[]'`, coerced to a string. -/
def jsonParseImages (c : Cell) : List String :=
  match parseJsonStrArr (jsToString (if truthy c then c else Cell.str "[]")) with
  | some l => l
  | none => []

/-- The row `saveProduct` writes for a product. -/
def productRow (p : Product) : List Cell :=
  [Cell.str p.id, Cell.str p.name, Cell.str p.nameEn, Cell.str p.description,
   Cell.str p.descriptionEn, Cell.str p.category, Cell.str p.unit,
   Cell.num p.minPrice, Cell.num p.maxPrice, Cell.str p.currency,
   Cell.str (jsonStringifyObj p.specifications),
   Cell.str (if p.isActive then "是" else "否"),
   Cell.str (jsonStringifyArr (p.images.getD []))]

/-- Decoding of one row in `getProducts`.  Note the source hardcodes
`specifications: \x7b\x7d` and never parses the stored blob back. -/
def decodeProductRow (headers row : List Cell) : Product :=
  let imagesCell := hIdx headers "图片"
  { id := strField (cellAt row (hIdx headers "ID"))
    name := strField (cellAt row (hIdx headers "产品名称"))
    nameEn := strField (cellAt row (hIdx headers "英文名称"))
    description := strField (cellAt row (hIdx headers "产品描述"))
    descriptionEn := strField (cellAt row (hIdx headers "英文描述"))
    category := strField (cellAt row (hIdx headers "分类"))
    unit := strField (cellAt row (hIdx headers "单位"))
    minPrice := parseFloatOrZero (cellAt row (hIdx headers "最低价格"))
    maxPrice := parseFloatOrZero (cellAt row (hIdx headers "最高价格"))
    currency := strFieldD (cellAt row (hIdx headers "货币")) "USD"
    specifications := []
    isActive := cellEqStr (cellAt row (hIdx headers "是否启用")) "是"
    images := if imagesCell ≥ 0 then some (jsonParseImages (cellAt row imagesCell)) else none }

def getProducts : Sheet → List Product
  | [] => []
  | headers :: rows =>
    if rows.isEmpty then [] else rows.map (decodeProductRow headers)

def saveProductData (p : Product) : Sheet → Sheet
  | [] => [productRow p]
  | h :: rest => h :: upsertBy p.id (productRow p) rest

def saveProductWb (p : Product) (wb : Workbook) : Workbook :=
  setSheet wb "产品库" (saveProductData p ((getSheet wb "产品库").getD [productHeaderRow]))

def getProductsWb (wb : Workbook) : List Product :=
  match getSheet wb "产品库" with
  | none => []
  | some sheet => getProducts sheet

/-- The row `saveCustomer` writes. -/
def customerRow (c : Customer) : List Cell :=
  [Cell.str c.id, Cell.str c.name, Cell.str c.contactPerson, Cell.str c.email,
   Cell.str c.phone, Cell.str c.address, Cell.str c.country,
   Cell.str c.companyName, Cell.str c.taxNumber, Cell.str c.notes]

/-- Decoding of one row in `getCustomerById` (`String(cell || '')`). -/
def decodeCustomerRow (headers row : List Cell) : Customer :=
  { id := strFieldS (cellAt row (hIdx headers "ID"))
    name := strFieldS (cellAt row (hIdx headers "客户名称"))
    contactPerson := strFieldS (cellAt row (hIdx headers "联系人"))
    email := strFieldS (cellAt row (hIdx headers "邮箱"))
    phone := strFieldS (cellAt row (hIdx headers "电话"))
    address := strFieldS (cellAt row (hIdx headers "地址"))
    country := strFieldS (cellAt row (hIdx headers "国家"))
    companyName := strFieldS (cellAt row (hIdx headers "公司名称"))
    taxNumber := strFieldS (cellAt row (hIdx headers "税号"))
    notes := strFieldS (cellAt row (hIdx headers "备注")) }

/-- `getCustomerById`: first data row whose ID cell strictly equals the
requested id, decoded; `none` when there is no match or no data. -/
def getCustomerById (customerId : String) : Sheet → Option Customer
  | [] => none
  | headers :: rows =>
    if rows.isEmpty then none
    else
      (rows.find? (fun row => cellEqStr (cellAt row (hIdx headers "ID")) customerId)).map
        (decodeCustomerRow headers)

/-- The row `saveQuotation` writes into the quotation sheet. -/
def quotationRow (q : Quotation) : List Cell :=
  [Cell.str q.id, Cell.str q.quotationNumber, Cell.str q.companyId,
   Cell.str q.customerId, Cell.str q.quotationDate, Cell.str q.expiryDate,
   Cell.str q.currency, Cell.str q.paymentTerms, Cell.str q.deliveryTerms,
   Cell.str q.pickupLocation, Cell.str q.tradeTerms, Cell.num q.subtotal,
   Cell.num q.taxRate, Cell.num q.taxAmount, Cell.num q.totalAmount,
   Cell.str q.status, Cell.str q.notes]

/-- Decoding of one row in `getQuotations`; `items` is always `[]`. -/
def decodeQuotationRow (headers row : List Cell) : Quotation :=
  { id := strFieldS (cellAt row (hIdx headers "ID"))
    quotationNumber := strFieldS (cellAt row (hIdx headers "报价单号"))
    companyId := strFieldS (cellAt row (hIdx headers "公司ID"))
    customerId := strFieldS (cellAt row (hIdx headers "客户ID"))
    quotationDate := strFieldS (cellAt row (hIdx headers "报价日期"))
    expiryDate := strFieldS (cellAt row (hIdx headers "有效期"))
    currency := strFieldD (cellAt row (hIdx headers "货币")) "USD"
    paymentTerms := strFieldS (cellAt row (hIdx headers "付款条款"))
    deliveryTerms := strFieldS (cellAt row (hIdx headers "交货条款"))
    pickupLocation := strFieldS (cellAt row (hIdx headers "提货地点"))
    tradeTerms := strFieldS (cellAt row (hIdx headers "贸易术语"))
    subtotal := numberOrZero (cellAt row (hIdx headers "小计"))
    taxRate := numberOrZero (cellAt row (hIdx headers "税率"))
    taxAmount := numberOrZero (cellAt row (hIdx headers "税额"))
    totalAmount := numberOrZero (cellAt row (hIdx headers "总金额"))
    status := strFieldD (cellAt row (hIdx headers "状态")) "draft"
    notes := strFieldS (cellAt row (hIdx headers "备注"))
    items := [] }

def getQuotations : Sheet → List Quotation
  | [] => []
  | headers :: rows =>
    if rows.isEmpty then [] else rows.map (decodeQuotationRow headers)

def getQuotationsWb (wb : Workbook) : List Quotation :=
  match getSheet wb "报价单" with
  | none => []
  | some sheet => getQuotations sheet

/-- The row `saveQuotation` writes for one item (the quotation id goes in
column 1). -/
def quotationItemRowOf (it : QuotationItem) (qid : String) : List Cell :=
  [Cell.str it.id, Cell.str qid, Cell.str it.productId, Cell.str it.productName,
   Cell.str it.description, Cell.num it.quantity, Cell.str it.unit,
   Cell.num it.unitPrice, Cell.num it.discountRate, Cell.num it.discountAmount,
   Cell.num it.totalPrice]

/-- Decoding of one row in `getQuotationItemsByQuotationId`. -/
def decodeQuotationItemRow (headers row : List Cell) : QuotationItem :=
  { id := strFieldS (cellAt row (hIdx headers "ID"))
    productId := strFieldS (cellAt row (hIdx headers "产品ID"))
    productName := strFieldS (cellAt row (hIdx headers "产品名称"))
    description := strFieldS (cellAt row (hIdx headers "描述"))
    quantity := numberOrZero (cellAt row (hIdx headers "数量"))
    unit := strFieldS (cellAt row (hIdx headers "单位"))
    unitPrice := numberOrZero (cellAt row (hIdx headers "单价"))
    discountRate := numberOrZero (cellAt row (hIdx headers "折扣率"))
    discountAmount := numberOrZero (cellAt row (hIdx headers "折扣金额"))
    totalPrice := numberOrZero (cellAt row (hIdx headers "总价")) }

/-- `getQuotationItemsByQuotationId` on the items sheet: rows whose
quotation-id cell stringifies to the requested id, decoded in row order. -/
def getQuotationItems (quotationId : String) : Sheet → List QuotationItem
  | [] => []
  | headers :: rows =>
    if rows.isEmpty then []
    else
      (rows.filter (fun row => jsToString (cellAt row (hIdx headers "报价单ID")) == quotationId)).map
        (decodeQuotationItemRow headers)

def getQuotationItemsWb (quotationId : String) (wb : Workbook) : List QuotationItem :=
  match getSheet wb "报价单项" with
  | none => []
  | some sheet => getQuotationItems quotationId sheet

/-- `saveQuotation`: upsert the quotation row, then rebuild the items
sheet as header, kept foreign rows (those whose quotation-id cell does not
stringify to `q.id`), then the new item rows in list order; one persist at
the end (the model's returned workbook is what gets persisted). -/
def saveQuotationWb (q : Quotation) (wb : Workbook) : Workbook :=
  let sheetQ := (getSheet wb "报价单").getD [quotationHeaderRow]
  let dataQ :=
    match sheetQ with
    | [] => [quotationRow q]
    | h :: rest => h :: upsertBy q.id (quotationRow q) rest
  let wb₁ := setSheet wb "报价单" dataQ
  let sheetI := (getSheet wb₁ "报价单项").getD [quotationItemHeaderRow]
  let headersI := sheetI.headD []
  let idxQ := hIdx headersI "报价单ID"
  let kept := headersI ::
    (sheetI.drop 1).filter (fun row => jsToString (cellAt row idxQ) != q.id)
  let newRows := q.items.map (fun it => quotationItemRowOf it q.id)
  setSheet wb₁ "报价单项" (kept ++ newRows)

/-! ### Store-level operations (`companyStore.ts`, `productStore.ts`)

Each `excelService.saveX` call ends in exactly one
`saveToLocalStorage` persist; the store loops below therefore perform one
persist per record they re-save.  Where a count is returned it counts
those persists. -/

/-- `deleteCompany(companyId)`: filter the in-memory list, then re-save
every remaining company (one upsert + persist each).  Nothing else touches
the sheet. -/
def deleteCompanyStore (companyId : String) (companies : List Company) (wb : Workbook) : Workbook :=
  (companies.filter (fun c => c.id != companyId)).foldl (fun w c => saveCompanyWb c w) wb

/-- `deleteProduct(productId)`, same shape. -/
def deleteProductStore (productId : String) (products : List Product) (wb : Workbook) : Workbook :=
  (products.filter (fun p => p.id != productId)).foldl (fun w p => saveProductWb p w) wb

/-- `setDefaultCompany(companyId)`: map `isDefault := (id === companyId)`
over the in-memory list, then re-save each updated company in order.
Returns the final workbook and the number of persists performed. -/
def setDefaultCompanyStore (companyId : String) (companies : List Company) (wb : Workbook) :
    Workbook × ℕ :=
  let updatedCompanies := companies.map (fun c => { c with isDefault := c.id == companyId })
  updatedCompanies.foldl (fun (acc : Workbook × ℕ) c => (saveCompanyWb c acc.1, acc.2 + 1)) (wb, 0)

/-! ### Backing store (`readFromLocalStorage` / `initializeExcelFile` /
`importExcel`)

The single localStorage value is modelled by its parse outcome: a base64
value carries the workbook `XLSX.read` would yield (`none` when the read
throws, i.e. the value is unparseable), and a legacy `blob:` URL carries
the workbook its fetch would produce (`none` when the fetch fails). -/

inductive StoredVal
  | b64 (parse : Option Workbook)
  | blob (fetched : Option Workbook)
  deriving DecidableEq

/-- `readFromLocalStorage`, returning the workbook handed to the caller
(`none` models the `catch`-and-`return null` path) together with the
stored value afterwards.
* absent value: `initializeExcelFile` persists a fresh workbook, then the
  recursive read returns it;
* parseable base64: returned, store untouched;
* unparseable base64: `XLSX.read` throws, the outer catch logs and
  returns `null`, store untouched;
* live `blob:` URL: fetched workbook returned, store untouched;
* dead `blob:` URL: reinitialised, fresh workbook returned. -/
def readFromLocalStorage : Option StoredVal → Option Workbook × Option StoredVal
  | none => (some freshWorkbook, some (StoredVal.b64 (some freshWorkbook)))
  | some (StoredVal.b64 (some w)) => (some w, some (StoredVal.b64 (some w)))
  | some (StoredVal.b64 none) => (none, some (StoredVal.b64 none))
  | some (StoredVal.blob (some w)) => (some w, some (StoredVal.blob (some w)))
  | some (StoredVal.blob none) => (some freshWorkbook, some (StoredVal.b64 (some freshWorkbook)))

/-- The tables `importExcel` requires. -/
def requiredSheets : List String := ["公司信息", "产品库", "客户信息"]

/-- `importExcel` on an already-parsed uploaded workbook: reject naming
each missing required sheet and leave the store untouched, or persist the
uploaded workbook as the new backing value. -/
def importExcel (wb : Workbook) (stored : Option StoredVal) :
    Except String Unit × Option StoredVal :=
  let availableSheets := wb.map Prod.fst
  let missingSheets := requiredSheets.filter (fun sheet => ! availableSheets.contains sheet)
  if missingSheets.isEmpty then (Except.ok (), some (StoredVal.b64 (some wb)))
  else (Except.error ("缺少必要的工作表: " ++ String.intercalate ", " missingSheets), stored)

/-! ### PDF generation (`pdfService.ts`) -/

inductive LogoPos
  | left
  | center
  | right
  deriving DecidableEq

structure PDFOptions where
  logoPosition : Option LogoPos
  showProductImages : Option Bool
  deriving DecidableEq

structure CompanyInfo where
  name : String
  nameEn : String
  address : String
  addressEn : String
  phone : String
  email : String
  website : String
  taxNumber : String
  bankName : String
  bankAccount : String
  swiftCode : String
  intermediaryBank : Option String
  logo : Option String
  deriving DecidableEq

structure CustomerInfo where
  name : String
  companyName : String
  address : String
  country : String
  contactPerson : String
  email : String
  phone : String
  deriving DecidableEq

/-- An item as `generateQuotationHTML` consumes it; `images` models the
untyped `(item as any).images` access. -/
structure PdfItem where
  productName : String
  description : String
  quantity : JsNum
  unit : String
  unitPrice : JsNum
  totalPrice : JsNum
  images : Option (List String)
  deriving DecidableEq

structure QuotationData where
  quotationNumber : String
  quotationDate : String
  expiryDate : String
  currency : String
  pickupLocation : String
  tradeTerms : String
  paymentTerms : String
  deliveryTerms : String
  items : List PdfItem
  subtotal : JsNum
  taxRate : JsNum
  taxAmount : JsNum
  totalAmount : JsNum
  notes : String
  deriving DecidableEq

/-- `(x).toFixed(2)`: NaN prints as NaN; a finite value is rounded to two
decimals (half away from zero; double rounding noise at exact ties is not
modelled) and printed with a two-digit fraction. -/
def toFixed2 : JsNum → String
  | JsNum.nan => "NaN"
  | JsNum.val q =>
    let scaled : Int := if q ≥ 0 then ⌊q * 100 + 1/2⌋ else -⌊-q * 100 + 1/2⌋
    let sign := if scaled < 0 then "-" else ""
    let n := scaled.natAbs
    let frac := n % 100
    sign ++ toString (n / 100) ++ "." ++ (if frac < 10 then "0" else "") ++ toString frac

/-- `$\x7bnum\x7d` interpolation of a JS number. -/
def jsNumToString : JsNum → String
  | JsNum.nan => "NaN"
  | JsNum.val q => ratToString q

/-- `x > 0` on a JS number (false for NaN). -/
def jsGtZero : JsNum → Bool
  | JsNum.nan => false
  | JsNum.val q => q > 0

/-- `company.logo ? '<img ...>' : ''` (an absent or empty logo reference
is falsy). -/
def logoHtmlOf (company : CompanyInfo) : String :=
  match company.logo with
  | some s =>
    if s ≠ "" then "<img src=\"" ++ s ++ "\" alt=\"Company Logo\" class=\"logo\">" else ""
  | none => ""

/-- The `logoContainer` prelude: only the `center` position emits it. -/
def logoContainerOf (opts : PDFOptions) (logoHtml : String) : String :=
  if opts.logoPosition = some LogoPos.center then
    "<div style=\"text-align:center; margin-bottom:10px;\">" ++ logoHtml ++ "</div>"
  else ""

/-- The trailing slot of the header block:
`logoPosition === 'left' ? logoHtml : logoPosition === 'right' ? logoHtml : ''`. -/
def headerLogoSlot (opts : PDFOptions) (logoHtml : String) : String :=
  if opts.logoPosition = some LogoPos.left then logoHtml
  else if opts.logoPosition = some LogoPos.right then logoHtml
  else ""

/-- Inline `<img>` tags for the first three images of an item. -/
def imagesInlineHtml (l : List String) : String :=
  String.join ((l.take 3).map (fun src =>
    "<img src=\"" ++ src ++
    "\" style=\"width:60px;height:60px;object-fit:contain;border:1px solid #eee;padding:2px;\" />"))

/-- The images block of one item row: present only when
`showProductImages && item.images && item.images.length` is truthy. -/
def itemImagesBlock (opts : PDFOptions) (item : PdfItem) : String :=
  let cond := (opts.showProductImages == some true) &&
    (match item.images with
     | some l => !l.isEmpty
     | none => false)
  if cond then
    "<div style=\"margin-top:6px; display:flex; gap:6px; flex-wrap:wrap;\">" ++
      imagesInlineHtml (item.images.getD []) ++ "</div>"
  else ""

/-- One `<tr>` of the line-item table (`index` is the 0-based map index;
the cell prints `index + 1`). -/
def itemRowHtml (currency : String) (opts : PDFOptions) (index : ℕ) (item : PdfItem) : String :=
  "\n                <tr>\n                  <td class=\"number\">" ++
    toString (index + 1) ++
    "</td>\n                  <td>" ++ item.productName ++
    "</td>\n                  <td class=\"description\">" ++ item.description ++
    "\n                  " ++ itemImagesBlock opts item ++
    "\n                  </td>\n                  <td class=\"number\">" ++
    jsNumToString item.quantity ++
    "</td>\n                  <td>" ++ item.unit ++
    "</td>\n                  <td class=\"number\">" ++ currency ++ " " ++
    toFixed2 item.unitPrice ++
    "</td>\n                  <td class=\"number\">" ++ currency ++ " " ++
    toFixed2 item.totalPrice ++
    "</td>\n                </tr>\n              "

/-- `items.map((item, index) => ...).join('')`. -/
def itemsHtml (currency : String) (opts : PDFOptions) : ℕ → List PdfItem → String
  | _, [] => ""
  | index, item :: rest =>
    itemRowHtml currency opts index item ++ itemsHtml currency opts (index + 1) rest

/-- The tax row of the totals block, emitted only when `taxRate > 0`. -/
def taxRowHtml (q : QuotationData) : String :=
  if jsGtZero q.taxRate then
    "\n              <div class=\"total-row\">\n                <span>Tax (" ++
      jsNumToString q.taxRate ++ "%):</span>\n                <span>" ++
      q.currency ++ " " ++ toFixed2 q.taxAmount ++
      "</span>\n              </div>\n            "
  else ""

/-- `quotation.notes ? '4. NOTES: ...' : ''`. -/
def notesLineHtml (q : QuotationData) : String :=
  if q.notes ≠ "" then "4. NOTES: " ++ q.notes else ""

/-- `company.intermediaryBank ? '<div>...' : ''`. -/
def intermediaryBankHtml (company : CompanyInfo) : String :=
  match company.intermediaryBank with
  | some s =>
    if s ≠ "" then "<div><strong>Intermediary Bank:</strong> " ++ s ++ "</div>" else ""
  | none => ""

/-- The static `<style>` sheet of the quotation template (braces written
as \x7b / \x7d). -/
def quotationCss : String :=
  "\n        <style>\n          * \x7b\n            margin: 0;\n            padding: 0;\n            box-sizing: border-box;\n          \x7d\n          \n          body \x7b\n            font-family: 'Arial', sans-serif;\n            font-size: 12px;\n            line-height: 1.4;\n            color: #333;\n          \x7d\n          \n          .container \x7b\n            max-width: 800px;\n            margin: 0 auto;\n            padding: 20px;\n          \x7d\n          \n          .header \x7b\n            display: flex;\n            justify-content: space-between;\n            align-items: flex-start;\n            margin-bottom: 30px;\n            padding-bottom: 20px;\n            border-bottom: 2px solid #1e40af;\n          \x7d\n          \n          .company-info \x7b\n            flex: 1;\n          \x7d\n          \n          .company-name \x7b\n            font-size: 18px;\n            font-weight: bold;\n            color: #1e40af;\n            margin-bottom: 8px;\n          \x7d\n          \n          .company-name-en \x7b\n            font-size: 14px;\n            color: #666;\n            margin-bottom: 12px;\n          \x7d\n          \n          .company-details \x7b\n            font-size: 11px;\n            line-height: 1.5;\n          \x7d\n          \n          .company-details div \x7b\n            margin-bottom: 4px;\n          \x7d\n          \n          .logo \x7b\n            width: 120px;\n            height: 80px;\n            object-fit: contain;\n          \x7d\n          \n          .title \x7b\n            text-align: center;\n            font-size: 24px;\n            font-weight: bold;\n            color: #1e40af;\n            margin: 30px 0;\n            text-transform: uppercase;\n            letter-spacing: 2px;\n          \x7d\n          \n          .info-section \x7b\n            display: flex;\n            justify-content: space-between;\n            margin-bottom: 30px;\n          \x7d\n          \n          .info-block \x7b\n            flex: 1;\n            padding: 15px;\n            border: 1px solid #e5e7eb;\n            border-radius: 4px;\n          \x7d\n          \n          .info-block h3 \x7b\n            font-size: 14px;\n            font-weight: bold;\n            color: #1e40af;\n            margin-bottom: 10px;\n            text-transform: uppercase;\n          \x7d\n          \n          .info-row \x7b\n            display: flex;\n            margin-bottom: 6px;\n          \x7d\n          \n          .info-label \x7b\n            font-weight: bold;\n            width: 80px;\n            color: #666;\n          \x7d\n          \n          .info-value \x7b\n            flex: 1;\n          \x7d\n          \n          .items-table \x7b\n            width: 100%;\n            border-collapse: collapse;\n            margin: 20px 0;\n            font-size: 11px;\n          \x7d\n          \n          .items-table th \x7b\n            background-color: #1e40af;\n            color: white;\n            padding: 10px;\n            text-align: left;\n            font-weight: bold;\n            border: 1px solid #374151;\n          \x7d\n          \n          .items-table td \x7b\n            padding: 8px;\n            border: 1px solid #e5e7eb;\n            vertical-align: top;\n          \x7d\n          \n          .items-table .number \x7b\n            text-align: right;\n          \x7d\n          \n          .items-table .description \x7b\n            max-width: 300px;\n            word-wrap: break-word;\n          \x7d\n          \n          .totals \x7b\n            margin-left: auto;\n            width: 300px;\n            margin-top: 20px;\n          \x7d\n          \n          .total-row \x7b\n            display: flex;\n            justify-content: space-between;\n            padding: 8px 0;\n            border-bottom: 1px solid #e5e7eb;\n          \x7d\n          \n          .total-row:last-child \x7b\n            border-bottom: 2px solid #1e40af;\n            font-weight: bold;\n            font-size: 14px;\n          \x7d\n          \n          .terms-section \x7b\n            margin-top: 30px;\n            padding: 15px;\n            border: 1px solid #e5e7eb;\n            border-radius: 4px;\n            background-color: #f9fafb;\n          \x7d\n          \n          .terms-section h3 \x7b\n            font-size: 14px;\n            font-weight: bold;\n            color: #1e40af;\n            margin-bottom: 10px;\n          \x7d\n          \n          .terms-content \x7b\n            font-size: 11px;\n            line-height: 1.5;\n            white-space: pre-line;\n          \x7d\n          \n          .bank-info \x7b\n            margin-top: 20px;\n            padding: 15px;\n            border: 1px solid #e5e7eb;\n            border-radius: 4px;\n            background-color: #f0f9ff;\n          \x7d\n          \n          .bank-info h3 \x7b\n            font-size: 14px;\n            font-weight: bold;\n            color: #1e40af;\n            margin-bottom: 10px;\n          \x7d\n          \n          .bank-details \x7b\n            font-size: 11px;\n            line-height: 1.5;\n          \x7d\n          \n          .signature-section \x7b\n            display: flex;\n            justify-content: space-between;\n            margin-top: 50px;\n            padding-top: 30px;\n            border-top: 1px solid #e5e7eb;\n          \x7d\n          \n          .signature-block \x7b\n            text-align: center;\n            width: 200px;\n          \x7d\n          \n          .signature-title \x7b\n            font-weight: bold;\n            margin-bottom: 40px;\n            text-transform: uppercase;\n          \x7d\n          \n          .signature-line \x7b\n            border-top: 1px solid #333;\n            margin-top: 40px;\n            padding-top: 5px;\n            font-size: 11px;\n          \x7d\n          \n          .footer \x7b\n            margin-top: 30px;\n            text-align: center;\n            font-size: 10px;\n            color: #666;\n            border-top: 1px solid #e5e7eb;\n            padding-top: 15px;\n          \x7d\n        </style>\n      "

/-- `generateQuotationHTML`: the full template string, with the dynamic
slots interpolated exactly where the source places them. -/
def generateQuotationHTML (company : CompanyInfo) (customer : CustomerInfo)
    (quotation : QuotationData) (opts : PDFOptions) : String :=
  let logoHtml := logoHtmlOf company
  let logoContainer := logoContainerOf opts logoHtml
  "\n      <!DOCTYPE html>\n      <html lang=\"en\">\n      <head>\n        <meta charset=\"UTF-8\">\n        <meta name=\"viewport\" content=\"width=device-width, initial-scale=1.0\">\n        <title>QUOTATION - " ++
  quotation.quotationNumber ++
  "</title>" ++ quotationCss ++
  "</head>\n      <body>\n        <div class=\"container\">\n          " ++
  logoContainer ++
  "\n          <!-- 公司抬头 -->\n          <div class=\"header\">\n            <div class=\"company-info\">\n              <div class=\"company-name\">" ++
  company.name ++
  "</div>\n              <div class=\"company-name-en\">" ++
  company.nameEn ++
  "</div>\n              <div class=\"company-details\">\n                <div>地址: " ++
  company.address ++
  "</div>\n                <div>Address: " ++
  company.addressEn ++
  "</div>\n                <div>电话: " ++
  company.phone ++
  "</div>\n                <div>邮箱: " ++
  company.email ++
  "</div>\n                <div>网址: " ++
  company.website ++
  "</div>\n                <div>税号: " ++
  company.taxNumber ++
  "</div>\n              </div>\n            </div>\n            " ++
  headerLogoSlot opts logoHtml ++
  "\n          </div>\n          \n          <!-- 标题 -->\n          <div class=\"title\">QUOTATION</div>\n          \n          <!-- 基本信息 -->\n          <div class=\"info-section\">\n            <div class=\"info-block\">\n              <h3>To: " ++
  customer.name ++
  "</h3>\n              <div class=\"info-row\">\n                <span class=\"info-label\">Company:</span>\n                <span class=\"info-value\">" ++
  customer.companyName ++
  "</span>\n              </div>\n              <div class=\"info-row\">\n                <span class=\"info-label\">Address:</span>\n                <span class=\"info-value\">" ++
  customer.address ++
  "</span>\n              </div>\n              <div class=\"info-row\">\n                <span class=\"info-label\">Country:</span>\n                <span class=\"info-value\">" ++
  customer.country ++
  "</span>\n              </div>\n              <div class=\"info-row\">\n                <span class=\"info-label\">Contact:</span>\n                <span class=\"info-value\">" ++
  customer.contactPerson ++
  "</span>\n              </div>\n              <div class=\"info-row\">\n                <span class=\"info-label\">Email:</span>\n                <span class=\"info-value\">" ++
  customer.email ++
  "</span>\n              </div>\n              <div class=\"info-row\">\n                <span class=\"info-label\">Phone:</span>\n                <span class=\"info-value\">" ++
  customer.phone ++
  "</span>\n              </div>\n            </div>\n            \n            <div class=\"info-block\">\n              <h3>Quotation Details</h3>\n              <div class=\"info-row\">\n                <span class=\"info-label\">PI No:</span>\n                <span class=\"info-value\">" ++
  quotation.quotationNumber ++
  "</span>\n              </div>\n              <div class=\"info-row\">\n                <span class=\"info-label\">Date:</span>\n                <span class=\"info-value\">" ++
  quotation.quotationDate ++
  "</span>\n              </div>\n              <div class=\"info-row\">\n                <span class=\"info-label\">Expiry:</span>\n                <span class=\"info-value\">" ++
  quotation.expiryDate ++
  "</span>\n              </div>\n              <div class=\"info-row\">\n                <span class=\"info-label\">Currency:</span>\n                <span class=\"info-value\">" ++
  quotation.currency ++
  "</span>\n              </div>\n              <div class=\"info-row\">\n                <span class=\"info-label\">Pickup:</span>\n                <span class=\"info-value\">" ++
  quotation.pickupLocation ++
  "</span>\n              </div>\n              <div class=\"info-row\">\n                <span class=\"info-label\">Terms:</span>\n                <span class=\"info-value\">" ++
  quotation.tradeTerms ++
  "</span>\n              </div>\n            </div>\n          </div>\n          \n          <!-- 产品明细表 -->\n          <table class=\"items-table\">\n            <thead>\n              <tr>\n                <th>No.</th>\n                <th>Product</th>\n                <th>Description</th>\n                <th>Quantity</th>\n                <th>Unit</th>\n                <th>Unit Price</th>\n                <th>Amount</th>\n              </tr>\n            </thead>\n            <tbody>\n              " ++
  itemsHtml quotation.currency opts 0 quotation.items ++
  "\n            </tbody>\n          </table>\n          \n          <!-- 金额汇总 -->\n          <div class=\"totals\">\n            <div class=\"total-row\">\n              <span>Subtotal:</span>\n              <span>" ++
  quotation.currency ++ " " ++ toFixed2 quotation.subtotal ++
  "</span>\n            </div>\n            " ++
  taxRowHtml quotation ++
  "\n            <div class=\"total-row\">\n              <span>Total:</span>\n              <span>" ++
  quotation.currency ++ " " ++ toFixed2 quotation.totalAmount ++
  "</span>\n            </div>\n          </div>\n          \n          <!-- 条款和条件 -->\n          <div class=\"terms-section\">\n            <h3>Terms and Conditions</h3>\n            <div class=\"terms-content\">\n              1. PAYMENT TERMS: " ++
  quotation.paymentTerms ++
  "\n              2. DELIVERY TERMS: " ++
  quotation.deliveryTerms ++
  "\n              3. VALIDITY: This quotation is valid until " ++
  quotation.expiryDate ++
  "\n              " ++
  notesLineHtml quotation ++
  "\n            </div>\n          </div>\n          \n          <!-- 银行信息 -->\n          <div class=\"bank-info\">\n            <h3>Bank Information</h3>\n            <div class=\"bank-details\">\n              <div><strong>Bank Name:</strong> " ++
  company.bankName ++
  "</div>\n              <div><strong>Account Number:</strong> " ++
  company.bankAccount ++
  "</div>\n              <div><strong>SWIFT Code:</strong> " ++
  company.swiftCode ++
  "</div>\n              " ++
  intermediaryBankHtml company ++
  "\n            </div>\n          </div>\n          \n          <!-- 签字区域 -->\n          <div class=\"signature-section\">\n            <div class=\"signature-block\">\n              <div class=\"signature-title\">Seller</div>\n              <div class=\"signature-line\">Signature & Date</div>\n            </div>\n            <div class=\"signature-block\">\n              <div class=\"signature-title\">Buyer</div>\n              <div class=\"signature-line\">Signature & Date</div>\n            </div>\n          </div>\n          \n          <!-- 页脚 -->\n          <div class=\"footer\">\n            This document is generated by Quotation System. For questions, please contact " ++
  company.email ++
  "\n          </div>\n        </div>\n      </body>\n      </html>\n    "

/-! ### `generatePDF` teardown model

The surface (the off-screen iframe) is appended to the document first;
the run outcome records whether it was removed again.  The environment
flags select the path the source takes: whether
`iframe.contentDocument || iframe.contentWindow?.document` yields a
document, whether `onload` (vs `onerror`) fires, and whether the
html2canvas/jsPDF work inside the `try` succeeds. -/

structure PdfEnv where
  docAvailable : Bool
  loadOk : Bool
  captureOk : Bool
  deriving DecidableEq

structure PdfOutcome where
  result : Except String Unit
  surfaceDetached : Bool

/-- One run of `generatePDF`.  The `docAvailable = false` branch mirrors
the early `reject(new Error('无法创建iframe文档')); return;` which does
not remove the appended iframe; the other three paths all call
`document.body.removeChild(iframe)`. -/
def generatePDFRun (env : PdfEnv) : PdfOutcome :=
  if !env.docAvailable then
    { result := Except.error "无法创建iframe文档", surfaceDetached := false }
  else if !env.loadOk then
    { result := Except.error "iframe加载失败", surfaceDetached := true }
  else if env.captureOk then
    { result := Except.ok (), surfaceDetached := true }
  else
    { result := Except.error "html2canvas/jsPDF失败", surfaceDetached := true }

/-! ### Codec helper lemmas -/

theorem strField_str (s : String) : strField (Cell.str s) = s := by
  by_cases h : s = "" <;> simp [strField, truthy, jsToString, h]

theorem strFieldS_str (s : String) : strFieldS (Cell.str s) = s := by
  by_cases h : s = "" <;> simp [strFieldS, truthy, jsToString, h]

theorem strFieldD_str (s d : String) (h : s ≠ "") : strFieldD (Cell.str s) d = s := by
  simp [strFieldD, truthy, jsToString, h]

theorem cellEqStr_flag (b : Bool) :
    cellEqStr (Cell.str (if b then "是" else "否")) "是" = b := by
  cases b <;> rfl

theorem parseFloatStr_zero : parseFloatStr "0" = JsNum.val 0 := by
  rw [parseFloatStr, show ("0" : String).data = ['0'] from rfl]
  simp [isJsWs, parsePrefixFloat, takeSign, takeSignificand, takeDigits, takeExponent,
    scalePow10, digitsVal]

theorem parseFloatOrZero_num (n : JsNum) (h : n ≠ JsNum.nan) :
    parseFloatOrZero (Cell.num n) = n := by
  rcases n with - | q
  · exact absurd rfl h
  · by_cases hq : q = 0
    · subst hq
      simp only [parseFloatOrZero, truthy]
      norm_num
      exact parseFloatStr_zero
    · simp [parseFloatOrZero, truthy, hq, jsParseFloat]

theorem numberOrZero_num (n : JsNum) (h : n ≠ JsNum.nan) :
    numberOrZero (Cell.num n) = n := by
  rcases n with - | q
  · exact absurd rfl h
  · by_cases hq : q = 0
    · subst hq
      simp [numberOrZero, truthy, jsNumber]
    · simp [numberOrZero, truthy, hq, jsNumber]

theorem jsonStringifyArr_ne (l : List String) : jsonStringifyArr l ≠ "" := by
  intro h
  have hd : (jsonStringifyArr l).data = [] := by rw [h]
  rw [jsonStringifyArr, String.data_append, String.data_append] at hd
  simp at hd

theorem jsonParseImages_stringify (l : List String) :
    jsonParseImages (Cell.str (jsonStringifyArr l)) = l := by
  simp [jsonParseImages, truthy, jsToString, jsonStringifyArr_ne l,
    parseJsonStrArr_stringify]

/-- `getCompanies` decode undoes the `saveCompany` row encoding, provided
the optional references are present (an absent optional decodes as a
present empty string). -/
theorem decode_companyRow (c : Company) (hib : c.intermediaryBank ≠ none)
    (hlg : c.logo ≠ none) :
    decodeCompanyRow companyHeaderRow (companyRow c) = c := by
  rcases c with ⟨cid, cname, cnameEn, caddr, caddrEn, cphone, cemail, cweb, ctax, cbank,
    cacct, cswift, ib, lg, isDef⟩
  rcases ib with - | ib
  · exact absurd rfl hib
  rcases lg with - | lg
  · exact absurd rfl hlg
  simp only [decodeCompanyRow, companyRow]
  simp only [show hIdx companyHeaderRow "ID" = 0 from rfl,
    show hIdx companyHeaderRow "公司名称" = 1 from rfl,
    show hIdx companyHeaderRow "英文名称" = 2 from rfl,
    show hIdx companyHeaderRow "地址" = 3 from rfl,
    show hIdx companyHeaderRow "英文地址" = 4 from rfl,
    show hIdx companyHeaderRow "电话" = 5 from rfl,
    show hIdx companyHeaderRow "邮箱" = 6 from rfl,
    show hIdx companyHeaderRow "网址" = 7 from rfl,
    show hIdx companyHeaderRow "税号" = 8 from rfl,
    show hIdx companyHeaderRow "银行名称" = 9 from rfl,
    show hIdx companyHeaderRow "银行账号" = 10 from rfl,
    show hIdx companyHeaderRow "SWIFT代码" = 11 from rfl,
    show hIdx companyHeaderRow "中转银行" = 12 from rfl,
    show hIdx companyHeaderRow "Logo" = 13 from rfl,
    show hIdx companyHeaderRow "是否默认" = 14 from rfl]
  simp [cellAt, strField_str, cellEqStr_flag]

/-- `getProducts` decode on a `saveProduct` row: every field returns,
except `specifications`, which the source hardcodes to the empty map. -/
theorem decode_productRow (p : Product) (hmin : p.minPrice ≠ JsNum.nan)
    (hmax : p.maxPrice ≠ JsNum.nan) (hcur : p.currency ≠ "")
    (himg : p.images ≠ none) :
    decodeProductRow productHeaderRow (productRow p) = { p with specifications := [] } := by
  rcases p with ⟨pid, pname, pnameEn, pdesc, pdescEn, pcat, punit, pmin, pmax, pcur,
    pspec, pact, pimg⟩
  rcases pimg with - | pimg
  · exact absurd rfl himg
  simp only [decodeProductRow, productRow]
  simp only [show hIdx productHeaderRow "ID" = 0 from rfl,
    show hIdx productHeaderRow "产品名称" = 1 from rfl,
    show hIdx productHeaderRow "英文名称" = 2 from rfl,
    show hIdx productHeaderRow "产品描述" = 3 from rfl,
    show hIdx productHeaderRow "英文描述" = 4 from rfl,
    show hIdx productHeaderRow "分类" = 5 from rfl,
    show hIdx productHeaderRow "单位" = 6 from rfl,
    show hIdx productHeaderRow "最低价格" = 7 from rfl,
    show hIdx productHeaderRow "最高价格" = 8 from rfl,
    show hIdx productHeaderRow "货币" = 9 from rfl,
    show hIdx productHeaderRow "是否启用" = 11 from rfl,
    show hIdx productHeaderRow "图片" = 12 from rfl]
  simp only [cellAt] at *
  simp [strField_str, cellEqStr_flag, parseFloatOrZero_num _ hmin,
    parseFloatOrZero_num _ hmax, strFieldD_str _ _ hcur, jsonParseImages_stringify]

/-- `getCustomerById` decode undoes the `saveCustomer` row encoding. -/
theorem decode_customerRow (c : Customer) :
    decodeCustomerRow customerHeaderRow (customerRow c) = c := by
  rcases c with ⟨cid, cname, cper, cemail, cphone, caddr, cctry, ccomp, ctax, cnotes⟩
  simp only [decodeCustomerRow, customerRow]
  simp only [show hIdx customerHeaderRow "ID" = 0 from rfl,
    show hIdx customerHeaderRow "客户名称" = 1 from rfl,
    show hIdx customerHeaderRow "联系人" = 2 from rfl,
    show hIdx customerHeaderRow "邮箱" = 3 from rfl,
    show hIdx customerHeaderRow "电话" = 4 from rfl,
    show hIdx customerHeaderRow "地址" = 5 from rfl,
    show hIdx customerHeaderRow "国家" = 6 from rfl,
    show hIdx customerHeaderRow "公司名称" = 7 from rfl,
    show hIdx customerHeaderRow "税号" = 8 from rfl,
    show hIdx customerHeaderRow "备注" = 9 from rfl]
  simp [cellAt, strFieldS_str]

/-- The numeric fields of a quotation row that must be finite for decode
to return them unchanged. -/
def quotationFinite (q : Quotation) : Prop :=
  q.subtotal ≠ JsNum.nan ∧ q.taxRate ≠ JsNum.nan ∧ q.taxAmount ≠ JsNum.nan ∧
    q.totalAmount ≠ JsNum.nan

instance (q : Quotation) : Decidable (quotationFinite q) := by
  unfold quotationFinite
  infer_instance

/-- `getQuotations` decode on a `saveQuotation` row; `items` always
decodes to `[]`, so the input must carry none for equality. -/
theorem decode_quotationRow (q : Quotation) (hfin : quotationFinite q)
    (hcur : q.currency ≠ "") (hst : q.status ≠ "") (hit : q.items = []) :
    decodeQuotationRow quotationHeaderRow (quotationRow q) = q := by
  obtain ⟨h1, h2, h3, h4⟩ := hfin
  rcases q with ⟨qid, qnum, qcomp, qcust, qdate, qexp, qcur, qpay, qdel, qpick, qtrade,
    qsub, qrate, qtax, qtotal, qstatus, qnotes, qitems⟩
  simp only at h1 h2 h3 h4 hit
  subst hit
  simp only [decodeQuotationRow, quotationRow]
  simp only [show hIdx quotationHeaderRow "ID" = 0 from rfl,
    show hIdx quotationHeaderRow "报价单号" = 1 from rfl,
    show hIdx quotationHeaderRow "公司ID" = 2 from rfl,
    show hIdx quotationHeaderRow "客户ID" = 3 from rfl,
    show hIdx quotationHeaderRow "报价日期" = 4 from rfl,
    show hIdx quotationHeaderRow "有效期" = 5 from rfl,
    show hIdx quotationHeaderRow "货币" = 6 from rfl,
    show hIdx quotationHeaderRow "付款条款" = 7 from rfl,
    show hIdx quotationHeaderRow "交货条款" = 8 from rfl,
    show hIdx quotationHeaderRow "提货地点" = 9 from rfl,
    show hIdx quotationHeaderRow "贸易术语" = 10 from rfl,
    show hIdx quotationHeaderRow "小计" = 11 from rfl,
    show hIdx quotationHeaderRow "税率" = 12 from rfl,
    show hIdx quotationHeaderRow "税额" = 13 from rfl,
    show hIdx quotationHeaderRow "总金额" = 14 from rfl,
    show hIdx quotationHeaderRow "状态" = 15 from rfl,
    show hIdx quotationHeaderRow "备注" = 16 from rfl]
  simp [cellAt, strFieldS_str, numberOrZero_num _ h1, numberOrZero_num _ h2,
    numberOrZero_num _ h3, numberOrZero_num _ h4, strFieldD_str _ _ hcur,
    strFieldD_str _ _ hst]

/-- The numeric fields of an item that must be finite for decode to
return them unchanged. -/
def itemFinite (it : QuotationItem) : Prop :=
  it.quantity ≠ JsNum.nan ∧ it.unitPrice ≠ JsNum.nan ∧ it.discountRate ≠ JsNum.nan ∧
    it.discountAmount ≠ JsNum.nan ∧ it.totalPrice ≠ JsNum.nan

instance (it : QuotationItem) : Decidable (itemFinite it) := by
  unfold itemFinite
  infer_instance

/-- `getQuotationItemsByQuotationId` decode undoes the item-row encoding
`saveQuotation` writes. -/
theorem decode_itemRow (it : QuotationItem) (qid : String) (hfin : itemFinite it) :
    decodeQuotationItemRow quotationItemHeaderRow (quotationItemRowOf it qid) = it := by
  obtain ⟨h1, h2, h3, h4, h5⟩ := hfin
  rcases it with ⟨iid, ipid, ipname, idesc, iqty, iunit, iprice, irate, idisc, itotal⟩
  simp only at h1 h2 h3 h4 h5
  simp only [decodeQuotationItemRow, quotationItemRowOf]
  simp only [show hIdx quotationItemHeaderRow "ID" = 0 from rfl,
    show hIdx quotationItemHeaderRow "产品ID" = 2 from rfl,
    show hIdx quotationItemHeaderRow "产品名称" = 3 from rfl,
    show hIdx quotationItemHeaderRow "描述" = 4 from rfl,
    show hIdx quotationItemHeaderRow "数量" = 5 from rfl,
    show hIdx quotationItemHeaderRow "单位" = 6 from rfl,
    show hIdx quotationItemHeaderRow "单价" = 7 from rfl,
    show hIdx quotationItemHeaderRow "折扣率" = 8 from rfl,
    show hIdx quotationItemHeaderRow "折扣金额" = 9 from rfl,
    show hIdx quotationItemHeaderRow "总价" = 10 from rfl]
  simp [cellAt, strFieldS_str, numberOrZero_num _ h1, numberOrZero_num _ h2,
    numberOrZero_num _ h3, numberOrZero_num _ h4, numberOrZero_num _ h5]

/-- The quotation-id cell of a freshly written item row stringifies to the
quotation id. -/
theorem itemRow_qid (it : QuotationItem) (qid : String) :
    jsToString (cellAt (quotationItemRowOf it qid) 1) = qid := by
  simp [quotationItemRowOf, cellAt, jsToString]

/-! ### Workbook and fold lemmas -/

theorem getSheet_setSheet_same (wb : Workbook) (n : String) (s : Sheet) :
    getSheet (setSheet wb n s) n = some s := by
  induction wb with
  | nil => simp [setSheet, getSheet]
  | cons e rest ih =>
    obtain ⟨m, t⟩ := e
    by_cases h : m = n <;> simp [setSheet, getSheet, h, ih]

theorem getSheet_setSheet_other (wb : Workbook) (n m : String) (s : Sheet)
    (h : n ≠ m) : getSheet (setSheet wb n s) m = getSheet wb m := by
  induction wb with
  | nil => simp [setSheet, getSheet, h]
  | cons e rest ih =>
    obtain ⟨k, t⟩ := e
    by_cases hk : k = n
    · subst hk
      simp [setSheet, getSheet, h]
    · simp [setSheet, getSheet, hk, ih]

theorem companyRow_cell0 (c : Company) : cellAt (companyRow c) 0 = Cell.str c.id := by
  simp [companyRow, cellAt]

/-- Replacing behaviour of the upsert scan when the head row matches. -/
theorem upsertBy_cons_eq (cid : String) (newRow r : List Cell) (rest : List (List Cell))
    (h : cellEqStr (cellAt r 0) cid = true) :
    upsertBy cid newRow (r :: rest) = newRow :: rest := by
  simp [upsertBy, h]

/-- Pass-through behaviour when the head row does not match. -/
theorem upsertBy_cons_ne (cid : String) (newRow r : List Cell) (rest : List (List Cell))
    (h : cellEqStr (cellAt r 0) cid = false) :
    upsertBy cid newRow (r :: rest) = r :: upsertBy cid newRow rest := by
  simp [upsertBy, h]

/-- A fold of company upserts passes over a row none of the companies
match. -/
theorem foldUpsert_pass (cs : List Company) (r : List Cell) :
    ∀ (rows : List (List Cell)),
    (∀ c ∈ cs, cellEqStr (cellAt r 0) c.id = false) →
    cs.foldl (fun rs c => upsertBy c.id (companyRow c) rs) (r :: rows) =
      r :: cs.foldl (fun rs c => upsertBy c.id (companyRow c) rs) rows := by
  induction cs with
  | nil => intro rows _; rfl
  | cons c cs' ih =>
    intro rows hpass
    have hc := hpass c (List.mem_cons_self c cs')
    simp only [List.foldl_cons]
    rw [upsertBy_cons_ne _ _ _ _ hc]
    exact ih _ (fun d hd => hpass d (List.mem_cons_of_mem c hd))

/-- Upserting `f`-updated companies over their own encoded rows rewrites
the rows in place (ids must be distinct and preserved by `f`). -/
theorem foldUpsert_map (f : Company → Company) (hid : ∀ c, (f c).id = c.id) :
    ∀ (ds : List Company), (ds.map Company.id).Nodup →
    (ds.map f).foldl (fun rs c => upsertBy c.id (companyRow c) rs) (ds.map companyRow) =
      (ds.map f).map companyRow := by
  intro ds
  induction ds with
  | nil => intro _; rfl
  | cons d ds' ih =>
    intro hnd
    rw [List.map_cons, List.nodup_cons] at hnd
    obtain ⟨hnotin, hnd'⟩ := hnd
    simp only [List.map_cons, List.foldl_cons]
    rw [upsertBy_cons_eq]
    · rw [foldUpsert_pass]
      · rw [ih hnd']
      · intro c hc
        obtain ⟨e, he, rfl⟩ := List.mem_map.mp hc
        simp only [companyRow_cell0, cellEqStr, hid d, hid e]
        have hne : d.id ≠ e.id := fun hcontra =>
          hnotin (hcontra ▸ List.mem_map_of_mem Company.id he)
        simpa using hne
    · simp [companyRow_cell0, cellEqStr, hid d]

/-- `saveCompany` keeps the header row and upserts among the data rows. -/
theorem saveCompanyData_cons (c : Company) (h : List Cell) (rest : List (List Cell)) :
    saveCompanyData c (h :: rest) = h :: upsertBy c.id (companyRow c) rest := rfl

/-- A fold of `saveCompany` keeps the header row in place. -/
theorem fold_saveCompanyData_cons (cs : List Company) :
    ∀ (h : List Cell) (rows : List (List Cell)),
    cs.foldl (fun s c => saveCompanyData c s) (h :: rows) =
      h :: cs.foldl (fun rs c => upsertBy c.id (companyRow c) rs) rows := by
  induction cs with
  | nil => intro h rows; rfl
  | cons c cs' ih =>
    intro h rows
    simp only [List.foldl_cons, saveCompanyData_cons]
    exact ih h _

/-- Folding `saveCompany` at workbook level acts on the company sheet and
nothing else. -/
theorem fold_saveCompanyWb_sheet (cs : List Company) :
    ∀ (wb : Workbook) (sheet : Sheet), getSheet wb "公司信息" = some sheet →
    getSheet (cs.foldl (fun w c => saveCompanyWb c w) wb) "公司信息" =
      some (cs.foldl (fun s c => saveCompanyData c s) sheet) := by
  induction cs with
  | nil => intro wb sheet h; simpa using h
  | cons c cs' ih =>
    intro wb sheet h
    simp only [List.foldl_cons]
    have hstep : getSheet (saveCompanyWb c wb) "公司信息" = some (saveCompanyData c sheet) := by
      rw [saveCompanyWb, h]
      simp [getSheet_setSheet_same]
    rw [ih _ _ hstep]

/-- `setDefaultCompanyStore` unfolded: the final workbook is the fold of
`saveCompany` over the updated list, and the persist count is the number
of companies. -/
theorem setDefaultCompanyStore_eq (companyId : String) (companies : List Company)
    (wb : Workbook) :
    setDefaultCompanyStore companyId companies wb =
      ((companies.map (fun c => { c with isDefault := c.id == companyId })).foldl
        (fun w c => saveCompanyWb c w) wb,
       companies.length) := by
  rw [setDefaultCompanyStore]
  have hgen : ∀ (l : List Company) (w : Workbook) (n : ℕ),
      l.foldl (fun (acc : Workbook × ℕ) c => (saveCompanyWb c acc.1, acc.2 + 1)) (w, n) =
        (l.foldl (fun w c => saveCompanyWb c w) w, n + l.length) := by
    intro l
    induction l with
    | nil => intro w n; simp
    | cons c l' ih =>
      intro w n
      simp only [List.foldl_cons, ih]
      simp only [List.length_cons, Prod.mk.injEq, true_and]
      omega
  rw [hgen]
  simp [List.length_map]

theorem decode_companyRow_projs (c : Company) :
    (decodeCompanyRow companyHeaderRow (companyRow c)).id = c.id ∧
      (decodeCompanyRow companyHeaderRow (companyRow c)).isDefault = c.isDefault := by
  simp only [decodeCompanyRow, companyRow,
    show hIdx companyHeaderRow "ID" = 0 from rfl,
    show hIdx companyHeaderRow "是否默认" = 14 from rfl]
  simp [cellAt, strField_str, cellEqStr_flag]

/-- The sheet produced by `setDefaultCompany`, when the store list matches
the persisted sheet: header plus the re-encoded updated rows. -/
theorem setDefaultCompany_sheet (companyId : String) (companies : List Company)
    (wb : Workbook)
    (hsheet : getSheet wb "公司信息" = some (companyHeaderRow :: companies.map companyRow))
    (hnd : (companies.map Company.id).Nodup) :
    getSheet (setDefaultCompanyStore companyId companies wb).1 "公司信息" =
      some (companyHeaderRow ::
        (companies.map (fun c => { c with isDefault := c.id == companyId })).map companyRow) := by
  rw [setDefaultCompanyStore_eq]
  rw [fold_saveCompanyWb_sheet _ _ _ hsheet]
  rw [fold_saveCompanyData_cons]
  rw [foldUpsert_map (fun c => { c with isDefault := c.id == companyId }) (fun _ => rfl)
    companies hnd]

/-- C2, amended - `setDefaultCompany(id)` (store list in sync with the
persisted sheet, distinct ids, id present): afterwards every Company row
has `isDefault = (row.id == id)` and exactly one company in `list()` has
`isDefault = true`; but the rewrite is persisted as one full-workbook
persist per company row (`companies.length` persists), not a single
batch. -/
theorem setDefaultCompany_amended (companyId : String) (companies : List Company)
    (wb : Workbook)
    (hsheet : getSheet wb "公司信息" = some (companyHeaderRow :: companies.map companyRow))
    (hnd : (companies.map Company.id).Nodup)
    (hmem : companyId ∈ companies.map Company.id) :
    (getCompaniesWb (setDefaultCompanyStore companyId companies wb).1).map
        (fun c => (c.id, c.isDefault)) =
      companies.map (fun c => (c.id, c.id == companyId)) ∧
    ((getCompaniesWb (setDefaultCompanyStore companyId companies wb).1).filter
        (fun c => c.isDefault)).length = 1 ∧
    (setDefaultCompanyStore companyId companies wb).2 = companies.length := by
  have hsheet' := setDefaultCompany_sheet companyId companies wb hsheet hnd
  have hne : companies ≠ [] := by
    rintro rfl
    simp at hmem
  have hlist : getCompaniesWb (setDefaultCompanyStore companyId companies wb).1 =
      ((companies.map (fun c => { c with isDefault := c.id == companyId })).map
        (fun c => decodeCompanyRow companyHeaderRow (companyRow c))) := by
    rw [getCompaniesWb, hsheet']
    split
    next heq => exact absurd heq (by simp)
    next sheet heq =>
      injection heq with hsh
      subst hsh
      rw [getCompanies]
      have : ((companies.map (fun c => { c with isDefault := c.id == companyId })).map
          companyRow).isEmpty = false := by
        simp [List.isEmpty_iff, hne]
      rw [this]
      simp [List.map_map]
  refine ⟨?_, ?_, ?_⟩
  · rw [hlist, List.map_map, List.map_map]
    apply List.map_congr_left
    intro c _
    have hp := decode_companyRow_projs { c with isDefault := c.id == companyId }
    simp only [Function.comp_apply]
    rw [Prod.ext_iff]
    exact ⟨hp.1, hp.2⟩
  · rw [hlist]
    rw [← List.countP_eq_length_filter]
    rw [List.map_map, List.countP_map]
    have hpt : ∀ c ∈ companies,
        ((fun c => c.isDefault) ∘
          ((fun c => decodeCompanyRow companyHeaderRow (companyRow c)) ∘
            (fun c => { c with isDefault := c.id == companyId }))) c =
          (c.id == companyId) := by
      intro c _
      simp only [Function.comp_apply]
      exact (decode_companyRow_projs _).2
    rw [List.countP_congr (by intro c hc; rw [hpt c hc])]
    have : companies.countP (fun c => c.id == companyId) =
        (companies.map Company.id).countP (fun s => s == companyId) := by
      rw [List.countP_map]
      rfl
    rw [this]
    have hcount : (companies.map Company.id).count companyId = 1 :=
      List.count_eq_one_of_mem hnd hmem
    simpa [List.count] using hcount
  · rw [setDefaultCompanyStore_eq]

/-! ### Concrete data for witnesses and counterexamples -/

/-- A company with the given id and default flag (other fields empty,
optional references present-empty). -/
def mkCompany (i : String) (d : Bool) : Company :=
  { id := i, name := "公司" ++ i, nameEn := "Co " ++ i, address := "", addressEn := "",
    phone := "", email := "", website := "", taxNumber := "", bankName := "",
    bankAccount := "", swiftCode := "", intermediaryBank := some "", logo := some "",
    isDefault := d }

/-- A product with the given id (numeric fields finite non-zero, images
present-empty, specifications empty). -/
def mkProduct (i : String) : Product :=
  { id := i, name := "产品" ++ i, nameEn := "", description := "", descriptionEn := "",
    category := "", unit := "", minPrice := JsNum.val 1, maxPrice := JsNum.val 2,
    currency := "USD", specifications := [], isActive := true, images := some [] }

/-- A one-company workbook whose sheet matches the store list `[c]`. -/
def companyWbOf (c : Company) : Workbook :=
  [("公司信息", [companyHeaderRow, companyRow c])]

/-- A one-product workbook whose sheet matches the store list `[p]`. -/
def productWbOf (p : Product) : Workbook :=
  [("产品库", [productHeaderRow, productRow p])]

/-- C1 (code bug, evaluation at the failing input): with a single saved
company `c1` the store's `deleteCompany("c1")` re-saves the empty
remaining list - the persisted sheet keeps the row - so the reloaded
`list()` still contains a record with id `c1`; likewise for
`deleteProduct("p1")`.  The claim (and § 3 of the spec: deletion rewrites
the table without the row) requires the id to be gone. -/
theorem deleteCompany_leaves_row :
    (getCompaniesWb (deleteCompanyStore "c1" [mkCompany "c1" true]
        (companyWbOf (mkCompany "c1" true)))).map Company.id = ["c1"] ∧
    (getProductsWb (deleteProductStore "p1" [mkProduct "p1"]
        (productWbOf (mkProduct "p1")))).map Product.id = ["p1"] := by
  constructor
  · rfl
  · rfl

/-- C2, counterexample to the one-batch part: with two companies,
`setDefaultCompany("b")` performs two persists (one `saveCompany` per
row), not the single whole-collection persist the claim asserts. -/
theorem setDefaultCompany_two_persists :
    (setDefaultCompanyStore "b" [mkCompany "a" true, mkCompany "b" false]
      [("公司信息",
        [companyHeaderRow, companyRow (mkCompany "a" true),
         companyRow (mkCompany "b" false)])]).2 = 2 ∧ (2 : ℕ) ≠ 1 := by
  constructor
  · rw [setDefaultCompanyStore_eq]
    rfl
  · decide

/-- C2 witness: the amended theorem applied to the two-company store. -/
theorem setDefaultCompany_amended_witness :
    (getCompaniesWb (setDefaultCompanyStore "b" [mkCompany "a" true, mkCompany "b" false]
        [("公司信息",
          [companyHeaderRow, companyRow (mkCompany "a" true),
           companyRow (mkCompany "b" false)])]).1).map (fun c => (c.id, c.isDefault)) =
      [("a", false), ("b", true)] ∧
    ((getCompaniesWb (setDefaultCompanyStore "b" [mkCompany "a" true, mkCompany "b" false]
        [("公司信息",
          [companyHeaderRow, companyRow (mkCompany "a" true),
           companyRow (mkCompany "b" false)])]).1).filter
        (fun c => c.isDefault)).length = 1 := by
  have h := setDefaultCompany_amended "b" [mkCompany "a" true, mkCompany "b" false]
    [("公司信息",
      [companyHeaderRow, companyRow (mkCompany "a" true),
       companyRow (mkCompany "b" false)])]
    (by rfl) (by decide) (by decide)
  refine ⟨?_, h.2.1⟩
  rw [h.1]
  rfl

/-- C3 - after `saveQuotation(Q)` (items sheet present with its canonical
header; item numeric fields finite), reading the items for `Q.id` returns
exactly `Q.items` in order: the save keeps only foreign rows and appends
the new rows, and the read filters with the same stringified comparison
the save used, so no previously stored row for `Q.id` survives. -/
theorem saveQuotation_items_roundtrip (q : Quotation) (wb : Workbook)
    (oldRows : List (List Cell))
    (hsheet : getSheet wb "报价单项" = some (quotationItemHeaderRow :: oldRows))
    (hfin : ∀ it ∈ q.items, itemFinite it) :
    getQuotationItemsWb q.id (saveQuotationWb q wb) = q.items := by
  have hname : ("报价单" : String) ≠ "报价单项" := by decide
  have hsheet1 : getSheet (setSheet wb "报价单"
      (match (getSheet wb "报价单").getD [quotationHeaderRow] with
       | [] => [quotationRow q]
       | h :: rest => h :: upsertBy q.id (quotationRow q) rest)) "报价单项" =
      some (quotationItemHeaderRow :: oldRows) := by
    rw [getSheet_setSheet_other _ _ _ _ hname, hsheet]
  rw [saveQuotationWb]
  simp only [hsheet1, Option.getD_some, List.headD_cons, List.drop_succ_cons, List.drop_zero]
  rw [getQuotationItemsWb]
  rw [getSheet_setSheet_same]
  simp only [List.cons_append]
  rw [getQuotationItems]
  rw [show hIdx quotationItemHeaderRow "报价单ID" = 1 from rfl]
  set filtered := oldRows.filter (fun row => jsToString (cellAt row 1) != q.id) with hfl
  set newRows := q.items.map (fun it => quotationItemRowOf it q.id) with hnr
  have hfilter_old : filtered.filter (fun row => jsToString (cellAt row 1) == q.id) = [] := by
    rw [List.filter_eq_nil_iff]
    intro row hrow
    have hmem := List.mem_filter.mp hrow
    simp only [bne_iff_ne, ne_eq] at hmem
    simp [hmem.2]
  have hfilter_new : newRows.filter (fun row => jsToString (cellAt row 1) == q.id) = newRows := by
    rw [List.filter_eq_self]
    intro row hrow
    obtain ⟨it, -, rfl⟩ := List.mem_map.mp hrow
    simp [itemRow_qid]
  by_cases hemp : (filtered ++ newRows).isEmpty
  · rw [if_pos hemp]
    have : newRows = [] := by
      rcases List.append_eq_nil.mp (List.isEmpty_iff.mp hemp) with ⟨-, h2⟩
      exact h2
    have hqnil : q.items = [] := List.map_eq_nil_iff.mp (hnr ▸ this)
    exact hqnil.symm
  · rw [if_neg hemp]
    rw [List.filter_append, hfilter_old, hfilter_new, List.nil_append]
    rw [hnr, List.map_map]
    have : ∀ it ∈ q.items,
        (decodeQuotationItemRow quotationItemHeaderRow ∘ fun it => quotationItemRowOf it q.id) it
          = id it := by
      intro it hit
      simp only [Function.comp_apply, id_eq]
      exact decode_itemRow it q.id (hfin it hit)
    rw [List.map_congr_left this, List.map_id]

def qItemDemo : QuotationItem :=
  { id := "i1", productId := "p1", productName := "P", description := "D",
    quantity := JsNum.val 2, unit := "pcs", unitPrice := JsNum.val 10,
    discountRate := JsNum.val 1, discountAmount := JsNum.val 1,
    totalPrice := JsNum.val 20 }

def qOldItem : QuotationItem :=
  { id := "i0", productId := "p0", productName := "Old", description := "",
    quantity := JsNum.val 1, unit := "pcs", unitPrice := JsNum.val 5,
    discountRate := JsNum.val 1, discountAmount := JsNum.val 1,
    totalPrice := JsNum.val 5 }

def qDemo : Quotation :=
  { id := "q1", quotationNumber := "QN1", companyId := "c1", customerId := "cu1",
    quotationDate := "2025-01-01", expiryDate := "2025-02-01", currency := "USD",
    paymentTerms := "T/T", deliveryTerms := "FOB", pickupLocation := "",
    tradeTerms := "FOB", subtotal := JsNum.val 20, taxRate := JsNum.val 1,
    taxAmount := JsNum.val 1, totalAmount := JsNum.val 20, status := "draft",
    notes := "", items := [qItemDemo] }

/-- A workbook whose items sheet already stores an item for `q1`. -/
def wbWithOldItem : Workbook :=
  [("报价单", [quotationHeaderRow]),
   ("报价单项", [quotationItemHeaderRow, quotationItemRowOf qOldItem "q1"])]

/-- C3 witness: saving `qDemo` over a sheet already holding a different
item for the same quotation returns exactly `qDemo.items`, not a union. -/
theorem saveQuotation_items_roundtrip_witness :
    getQuotationItemsWb "q1" (saveQuotationWb qDemo wbWithOldItem) = [qItemDemo] :=
  saveQuotation_items_roundtrip qDemo wbWithOldItem
    [quotationItemRowOf qOldItem "q1"] (by rfl) (by decide)

/-- C4, amended - the decode-of-encode round trip holds for every field
of the Company, Customer, Product, Quotation and QuotationItem row
schemas, with these carve-outs: `Product.specifications` always decodes
to the empty map (the source never parses the stored blob back); optional
references/lists must be present (absent ones decode as present-empty);
`currency`/`status` must be non-empty (empty decodes to the `USD`/`draft`
default); numeric fields must be finite; `Quotation.items` is not part of
the row and decodes as `[]`. -/
theorem decode_encode_roundtrip (c : Company) (cu : Customer) (p : Product)
    (q : Quotation) (it : QuotationItem) (qid : String)
    (hib : c.intermediaryBank ≠ none) (hlg : c.logo ≠ none)
    (hmin : p.minPrice ≠ JsNum.nan) (hmax : p.maxPrice ≠ JsNum.nan)
    (hcur : p.currency ≠ "") (himg : p.images ≠ none)
    (hqfin : quotationFinite q) (hqcur : q.currency ≠ "") (hqst : q.status ≠ "")
    (hqit : q.items = []) (hifin : itemFinite it) :
    decodeCompanyRow companyHeaderRow (companyRow c) = c ∧
    decodeCustomerRow customerHeaderRow (customerRow cu) = cu ∧
    decodeProductRow productHeaderRow (productRow p) = { p with specifications := [] } ∧
    decodeQuotationRow quotationHeaderRow (quotationRow q) = q ∧
    decodeQuotationItemRow quotationItemHeaderRow (quotationItemRowOf it qid) = it :=
  ⟨decode_companyRow c hib hlg, decode_customerRow cu,
   decode_productRow p hmin hmax hcur himg,
   decode_quotationRow q hqfin hqcur hqst hqit, decode_itemRow it qid hifin⟩

/-- A product whose free-form specification map is not empty. -/
def pSpecDemo : Product :=
  { mkProduct "p2" with specifications := [("颜色", "红色")] }

/-- C4, counterexample - a product with a non-empty specification map
does not survive the round trip: decode hardcodes `specifications` to the
empty map. -/
theorem roundtrip_fails_on_specifications :
    decodeProductRow productHeaderRow (productRow pSpecDemo) ≠ pSpecDemo := by
  intro h
  have hs := congrArg Product.specifications h
  simp [decodeProductRow, pSpecDemo, mkProduct] at hs

def custDemo : Customer :=
  { id := "cu1", name := "客户", contactPerson := "联系人", email := "e@x",
    phone := "1", address := "地址", country := "CN", companyName := "公司",
    taxNumber := "T", notes := "备注" }

def qEmptyDemo : Quotation := { qDemo with id := "q2", items := [] }

/-- C4 witness: the amended round trip at concrete records. -/
theorem decode_encode_roundtrip_witness :
    decodeCompanyRow companyHeaderRow (companyRow (mkCompany "w" true)) = mkCompany "w" true ∧
    decodeCustomerRow customerHeaderRow (customerRow custDemo) = custDemo ∧
    decodeProductRow productHeaderRow (productRow (mkProduct "w")) =
      { mkProduct "w" with specifications := [] } ∧
    decodeQuotationRow quotationHeaderRow (quotationRow qEmptyDemo) = qEmptyDemo ∧
    decodeQuotationItemRow quotationItemHeaderRow (quotationItemRowOf qItemDemo "q1") =
      qItemDemo :=
  decode_encode_roundtrip (mkCompany "w" true) custDemo (mkProduct "w") qEmptyDemo
    qItemDemo "q1" (by decide) (by decide) (by decide) (by decide) (by decide)
    (by decide) (by decide) (by decide) (by decide) (by decide) (by decide)

/-- C5, amended - the numeric decoders (`parseFloat(cell || '0')` and
`Number(cell || 0)`) yield 0 for missing/empty (falsy) cells, but a
non-empty cell that does not parse as a number yields NaN, not 0. -/
theorem numeric_decode_amended :
    (∀ c : Cell, truthy c = false →
        parseFloatOrZero c = JsNum.val 0 ∧ numberOrZero c = JsNum.val 0) ∧
    parseFloatOrZero (Cell.str "abc") = JsNum.nan ∧
    numberOrZero (Cell.str "abc") = JsNum.nan := by
  refine ⟨?_, ?_, ?_⟩
  · intro c hc
    constructor
    · simp only [parseFloatOrZero, hc, Bool.false_eq_true, if_false]
      exact parseFloatStr_zero
    · simp [numberOrZero, hc, jsNumber]
  · decide
  · decide

/-- C5 witness: the amended statement at the absent cell. -/
theorem numeric_decode_amended_witness :
    truthy Cell.undef = false ∧ parseFloatOrZero Cell.undef = JsNum.val 0 ∧
      numberOrZero Cell.undef = JsNum.val 0 :=
  ⟨rfl, (numeric_decode_amended.1 Cell.undef rfl).1,
   (numeric_decode_amended.1 Cell.undef rfl).2⟩

/-- A product row whose price cells hold non-numeric text. -/
def rowBadPrice : List Cell :=
  [Cell.str "pX", Cell.str "名", Cell.str "", Cell.str "", Cell.str "",
   Cell.str "", Cell.str "", Cell.str "abc", Cell.str "abc", Cell.str "USD",
   Cell.str "\x7b\x7d", Cell.str "是", Cell.str "[]"]

/-- C5, counterexample - decoding a product whose min-price cell holds
`"abc"` yields NaN, not the 0 the claim requires for unparseable cells. -/
theorem getProducts_nan_on_unparseable :
    (getProducts (productHeaderRow :: [rowBadPrice])).map Product.minPrice = [JsNum.nan] ∧
      JsNum.nan ≠ JsNum.val 0 := by
  constructor
  · rfl
  · decide

/-- C6, amended - an absent backing value and a dead legacy `blob:` URL
both reinitialise (fresh workbook persisted and returned), but a present
unparseable base64 value makes the read return `null` with the backing
value left unchanged - it is not treated like the absent case. -/
theorem readFromLocalStorage_amended :
    readFromLocalStorage none =
      (some freshWorkbook, some (StoredVal.b64 (some freshWorkbook))) ∧
    readFromLocalStorage (some (StoredVal.blob none)) =
      (some freshWorkbook, some (StoredVal.b64 (some freshWorkbook))) ∧
    readFromLocalStorage (some (StoredVal.b64 none)) =
      (none, some (StoredVal.b64 none)) ∧
    (∀ w : Workbook, readFromLocalStorage (some (StoredVal.b64 (some w))) =
      (some w, some (StoredVal.b64 (some w)))) :=
  ⟨rfl, rfl, rfl, fun _ => rfl⟩

/-- C6, counterexample - on a present but unparseable backing value the
load returns `null` (so callers see empty reads) and persists nothing,
instead of initialising, persisting and returning a fresh workbook as the
claim states. -/
theorem unparseable_value_not_reinitialised :
    (readFromLocalStorage (some (StoredVal.b64 none))).1 = none ∧
    (readFromLocalStorage (some (StoredVal.b64 none))).2 = some (StoredVal.b64 none) ∧
    (none : Option Workbook) ≠ some freshWorkbook := by
  refine ⟨rfl, rfl, ?_⟩
  intro h
  exact Option.noConfusion h

/-- C7 - import succeeds and fully replaces the backing value iff the
uploaded workbook has the Company (公司信息), Product (产品库) and
Customer (客户信息) tables; otherwise it is rejected with an error naming
each missing table (comma-joined) and the backing value is unchanged. -/
theorem importExcel_spec (wb : Workbook) (stored : Option StoredVal) :
    (((importExcel wb stored).1 = Except.ok () ∧
        (importExcel wb stored).2 = some (StoredVal.b64 (some wb))) ↔
      ∀ s ∈ requiredSheets, (wb.map Prod.fst).contains s) ∧
    ((∃ s ∈ requiredSheets, ¬ (wb.map Prod.fst).contains s) →
      (importExcel wb stored).1 = Except.error ("缺少必要的工作表: " ++
          String.intercalate ", "
            (requiredSheets.filter (fun sheet => ! (wb.map Prod.fst).contains sheet))) ∧
        (importExcel wb stored).2 = stored) := by
  have hiff : (requiredSheets.filter
        (fun sheet => ! (wb.map Prod.fst).contains sheet)).isEmpty = true ↔
      ∀ s ∈ requiredSheets, (wb.map Prod.fst).contains s := by
    rw [List.isEmpty_iff, List.filter_eq_nil_iff]
    constructor
    · intro h s hs
      have := h s hs
      simpa using this
    · intro h s hs
      simpa using h s hs
  by_cases hm : (requiredSheets.filter
      (fun sheet => ! (wb.map Prod.fst).contains sheet)).isEmpty = true
  · constructor
    · rw [importExcel]
      simp only [hm, if_true]
      simpa using hiff.mp hm
    · rintro ⟨s, hs, hns⟩
      exact absurd (hiff.mp hm s hs) hns
  · constructor
    · rw [importExcel]
      simp only [hm, if_false]
      constructor
      · rintro ⟨h1, -⟩
        exact absurd h1 (by simp)
      · intro hall
        exact absurd (hiff.mpr hall) hm
    · intro _
      rw [importExcel]
      simp only [hm, if_false]
      exact ⟨rfl, rfl⟩

/-- A workbook lacking the Customer sheet. -/
def wbNoCustomer : Workbook :=
  [("公司信息", [companyHeaderRow]), ("产品库", [productHeaderRow])]

/-- C7 witness: importing a workbook missing the Customer table is
rejected naming 客户信息, and the backing value stays as it was. -/
theorem importExcel_spec_witness :
    (importExcel wbNoCustomer none).1 = Except.error "缺少必要的工作表: 客户信息" ∧
    (importExcel wbNoCustomer none).2 = none := by
  have h := (importExcel_spec wbNoCustomer none).2 (by decide)
  refine ⟨?_, h.2⟩
  rw [h.1]
  rfl

/-- C8, amended - on every run where the iframe's document is acquired
(success, capture/encode failure, and load failure alike) the off-screen
surface is removed; the remaining path, where `contentDocument` cannot be
obtained, rejects with the iframe still attached. -/
theorem generatePDF_detaches_when_doc (env : PdfEnv) (h : env.docAvailable = true) :
    (generatePDFRun env).surfaceDetached = true := by
  rcases env with ⟨d, l, c⟩
  simp only at h
  subst h
  cases l <;> cases c <;> rfl

/-- C8 witness: the amended theorem on the all-success run. -/
theorem generatePDF_detaches_when_doc_witness :
    (generatePDFRun ⟨true, true, true⟩).surfaceDetached = true :=
  generatePDF_detaches_when_doc ⟨true, true, true⟩ rfl

/-- C8, counterexample - when the iframe document cannot be acquired the
call rejects without removing the already-attached surface, so it is not
released on every path. -/
theorem generatePDF_leaks_without_doc :
    (generatePDFRun ⟨false, true, true⟩).surfaceDetached = false ∧
    (generatePDFRun ⟨false, true, true⟩).result = Except.error "无法创建iframe文档" :=
  ⟨rfl, rfl⟩

/-- C9 - every quotation returned by `getQuotations` carries an empty
`items` list: the quotation row has no items column and the decoder sets
`items: []` unconditionally. -/
theorem getQuotations_items_empty (wb : Workbook) (q : Quotation)
    (hq : q ∈ getQuotationsWb wb) : q.items = [] := by
  rw [getQuotationsWb] at hq
  split at hq
  · simp at hq
  · rename_i sheet heq
    cases sheet with
    | nil => simp [getQuotations] at hq
    | cons headers rows =>
      rw [getQuotations] at hq
      by_cases hr : rows.isEmpty
      · rw [if_pos hr] at hq
        simp at hq
      · rw [if_neg hr] at hq
        obtain ⟨r, -, rfl⟩ := List.mem_map.mp hq
        rfl

/-- C9 witness: the quotation decoded from a stored row has no items. -/
theorem getQuotations_items_empty_witness :
    (decodeQuotationRow quotationHeaderRow (quotationRow qDemo)).items = [] :=
  getQuotations_items_empty [("报价单", [quotationHeaderRow, quotationRow qDemo])]
    (decodeQuotationRow quotationHeaderRow (quotationRow qDemo)) (by decide)

theorem itemImagesBlock_opts (p1 p2 : PDFOptions)
    (h : p1.showProductImages = p2.showProductImages) (item : PdfItem) :
    itemImagesBlock p1 item = itemImagesBlock p2 item := by
  simp [itemImagesBlock, h]

theorem itemRowHtml_opts (currency : String) (p1 p2 : PDFOptions)
    (h : p1.showProductImages = p2.showProductImages) (index : ℕ) (item : PdfItem) :
    itemRowHtml currency p1 index item = itemRowHtml currency p2 index item := by
  simp only [itemRowHtml, itemImagesBlock_opts p1 p2 h]

theorem itemsHtml_opts (currency : String) (p1 p2 : PDFOptions)
    (h : p1.showProductImages = p2.showProductImages) :
    ∀ (n : ℕ) (items : List PdfItem),
    itemsHtml currency p1 n items = itemsHtml currency p2 n items := by
  intro n items
  induction items generalizing n with
  | nil => rfl
  | cons item rest ih =>
    simp only [itemsHtml, itemRowHtml_opts currency p1 p2 h, ih]

/-- C10 - the generated quotation document with `logoPosition = 'left'`
is identical to the one with `logoPosition = 'right'`: the header slot
emits the same `logoHtml` for both values, and no other part of the
template depends on the position. -/
theorem logoPosition_left_eq_right (company : CompanyInfo) (customer : CustomerInfo)
    (quotation : QuotationData) (b : Option Bool) :
    generateQuotationHTML company customer quotation
        { logoPosition := some LogoPos.left, showProductImages := b } =
      generateQuotationHTML company customer quotation
        { logoPosition := some LogoPos.right, showProductImages := b } := by
  unfold generateQuotationHTML
  rw [itemsHtml_opts quotation.currency
    { logoPosition := some LogoPos.left, showProductImages := b }
    { logoPosition := some LogoPos.right, showProductImages := b } rfl]
  simp [logoContainerOf, headerLogoSlot]
